import Mathlib

/-!
SolarPay: a shallow embedding of the simulator, the database and the USSD service.

The embedded sources are `services/sensorSimulator.js`, `services/database.js`,
`services/africasTalking.js` (USSD handling and phone formatting) and the reading sink of
`server.js`.

Modelling conventions.

* Finite JavaScript numbers are modelled by exact rationals (`ℚ`), without IEEE rounding
  error; `Date.now()` is an integer number of milliseconds.  The stored battery level is also
  followed through `NaN` and the infinities (`JsNumber`, `overrideLevel`, `tickLevel`), since
  the battery route passes a missing or non-numeric level on to `setBatteryLevel`.
* `Math.random()`, `Date.now()`, `new Date()` are inputs of the operation that calls them.
* A `Map` is an association list with the insertion-order semantics of a JavaScript `Map`.
* The host runtime's interval table (`setInterval` / `clearInterval`) is part of the engine
  state, as is the log of everything that was handed to a sink.  A sink is identified by a
  number; it neither throws nor calls back into the simulator.
* Objects are records.  A household's balance is a number or a string (`JsValue`) and its
  power status a string or a value without `toUpperCase` (`none`), since the routes store these
  fields of a request body unchecked; a phone and a name are strings.  Households are found by
  their own `id` field.  Number and date formatting, `parseInt`, the conversion of a string to a
  number and `substring` (which counts UTF-16 units) are parameters (`Host`).
* An `async` function is run to completion; what it awaits (an SMS send, an airtime payment) is
  an input that says whether the call succeeded.  A function that can throw, or whose promise
  can be rejected, returns an `Option`, `none` standing for the throw or the rejection.
-/

namespace SolarPay

/-! ## JavaScript primitives -/

/-- The result of `Math.floor`. -/
def mathFloor (x : ℚ) : ℤ := ⌊x⌋

/-- The result of `Math.round`: the nearest integer, ties going up. -/
def mathRound (x : ℚ) : ℤ := ⌊x + 1 / 2⌋

/-- The result of `Math.max` on two finite numbers. -/
def mathMax (x y : ℚ) : ℚ := max x y

/-- The result of `Math.min` on two finite numbers. -/
def mathMin (x y : ℚ) : ℚ := min x y

/-- The result of `Math.abs` on an integer-valued number. -/
def mathAbs (x : ℤ) : ℤ := |x|

/-- Truncation toward zero. -/
def truncQ (x : ℚ) : ℤ := if 0 ≤ x then ⌊x⌋ else ⌈x⌉

/-- The remainder operator `x % y` of JavaScript: the sign follows the dividend. -/
def jsRem (x y : ℚ) : ℚ := x - y * (truncQ (x / y) : ℚ)

/-! ## Maps with insertion order -/

/-- The result of `Map.prototype.get`. -/
def mapGet {β : Type} : List (ℕ × β) → ℕ → Option β
  | [], _ => none
  | (k, v) :: rest, key => if k = key then some v else mapGet rest key

/-- The result of `Map.prototype.set`: an existing key keeps its position. -/
def mapSet {β : Type} : List (ℕ × β) → ℕ → β → List (ℕ × β)
  | [], key, val => [(key, val)]
  | (k, v) :: rest, key, val =>
    if k = key then (k, val) :: rest else (k, v) :: mapSet rest key val

/-- The result of `Map.prototype.delete`. -/
def mapDelete {β : Type} : List (ℕ × β) → ℕ → List (ℕ × β)
  | [], _ => []
  | (k, v) :: rest, key =>
    if k = key then mapDelete rest key else (k, v) :: mapDelete rest key

/-- The keys of a map, in iteration order. -/
def mapKeys {β : Type} (m : List (ℕ × β)) : List ℕ := m.map Prod.fst

/-! ## Data model -/

/-- The `timeOfDay` field: a label written by `startSimulation`, an hour written by a tick. -/
inductive TimeOfDay
  | morning
  | afternoon
  | evening
  | night
  | hour (h : ℤ)
  deriving DecidableEq, Repr

/-- The per-household object stored in `sensorStates`. -/
structure SensorState where
  batteryLevel : ℚ
  voltage : ℚ
  current : ℚ
  powerConsumption : ℚ
  solarGeneration : ℚ
  temperature : ℚ
  lastUpdate : ℤ
  timeOfDay : TimeOfDay
  deriving DecidableEq, Repr

/-- The object returned by `generateReading`. -/
structure Reading where
  batteryLevel : ℚ
  voltage : ℚ
  current : ℚ
  powerConsumption : ℚ
  solarGeneration : ℚ
  temperature : ℚ
  timeOfDay : ℤ
  isDaytime : Bool
  timestamp : ℤ
  deriving DecidableEq, Repr

/-- A live interval of the host runtime: its handle, what its closure captured, and the delay
in milliseconds given to `setInterval` (5000 wherever it is not written out). -/
structure Timer where
  handle : ℕ
  householdId : ℕ
  callback : ℕ
  period : ℕ := 5000
  deriving DecidableEq, Repr

/-- The simulator object together with the host's interval table and the sink log. -/
structure Engine where
  simulations : List (ℕ × ℕ)
  sensorStates : List (ℕ × SensorState)
  timers : List Timer
  nextHandle : ℕ
  delivered : List (ℕ × Option Reading)
  deriving DecidableEq, Repr

/-- The simulator as built by the constructor: both maps empty, no interval, nothing sent. -/
def Engine.empty : Engine :=
  { simulations := [], sensorStates := [], timers := [], nextHandle := 1, delivered := [] }

/-- What one call of `generateReading` reads from its environment. -/
structure TickInput where
  now : ℤ
  solarNoise : ℚ
  loadDraw : ℚ
  ambientDraw : ℚ
  stamp : ℤ
  deriving DecidableEq, Repr

/-- What `startSimulation` reads from its environment before its first reading. -/
structure StartInput where
  levelDraw : ℚ
  now : ℤ
  localHour : ℤ
  first : TickInput
  deriving DecidableEq, Repr

/-! ## The simulator -/

/-- The source's `calculateVoltage`. -/
def calculateVoltage (batteryLevel : ℚ) : ℚ :=
  if batteryLevel ≥ 90 then 12.6 + (batteryLevel - 90) * 0.02
  else if batteryLevel ≥ 50 then 12.2 + (batteryLevel - 50) * 0.01
  else if batteryLevel ≥ 20 then 11.8 + (batteryLevel - 20) * 0.013
  else 11.0 + batteryLevel * 0.04

/-- The source's `getTimeOfDay`, given the local hour of `new Date()`. -/
def getTimeOfDay (hour : ℤ) : TimeOfDay :=
  if hour ≥ 6 ∧ hour < 12 then TimeOfDay.morning
  else if hour ≥ 12 ∧ hour < 18 then TimeOfDay.afternoon
  else if hour ≥ 18 ∧ hour < 22 then TimeOfDay.evening
  else TimeOfDay.night

/-- The virtual hour of `generateReading`: `Math.floor((currentTime / (60 * 1000)) % 24)`. -/
def virtualHour (currentTime : ℤ) : ℤ :=
  mathFloor (jsRem ((currentTime : ℚ) / (60 * 1000)) 24)

/-- The `isDaytime` flag of `generateReading`. -/
def isDaytime (hour : ℤ) : Bool := decide (hour ≥ 6 ∧ hour ≤ 18)

/-- The `solarGeneration` local of `generateReading`, from the hour and the noise draw. -/
def solarGenerationAt (hour : ℤ) (noise : ℚ) : ℚ :=
  if isDaytime hour then
    mathMax 0 (5.0 * (1 - ((mathAbs (hour - 12) : ℤ) : ℚ) / 6)) + (noise - 0.5) * 0.5
  else 0

/-- The `powerConsumption` local of `generateReading`, from the load draw. -/
def powerConsumptionAt (draw : ℚ) : ℚ := 0.3 + draw * 1.5

/-- The `deltaCharge` local of `generateReading`. -/
def deltaCharge (netCurrent timeDelta : ℚ) : ℚ :=
  (netCurrent * timeDelta / 3600) / 100 * 100

/-- The `ambientTemp` local of `generateReading`. -/
def ambientTemp (hour : ℤ) (draw : ℚ) : ℚ :=
  if isDaytime hour then 30 + draw * 10 else 20 + draw * 5

/-- The body of `generateReading` on a present state: the updated state and the reading. -/
def tickBody (state : SensorState) (inp : TickInput) : SensorState × Reading :=
  let currentTime := inp.now
  let timeDelta : ℚ := ((currentTime - state.lastUpdate : ℤ) : ℚ) / 1000
  let hour := virtualHour currentTime
  let solarGeneration := solarGenerationAt hour inp.solarNoise
  let powerConsumption := powerConsumptionAt inp.loadDraw
  let netCurrent := solarGeneration - powerConsumption
  let batteryLevel :=
    mathMax 0 (mathMin 100 (state.batteryLevel + deltaCharge netCurrent timeDelta))
  let voltage := calculateVoltage batteryLevel
  let temperature := ambientTemp hour inp.ambientDraw + powerConsumption * 2
  ({ batteryLevel := batteryLevel
     voltage := voltage
     current := netCurrent
     powerConsumption := powerConsumption
     solarGeneration := solarGeneration
     temperature := temperature
     lastUpdate := currentTime
     timeOfDay := TimeOfDay.hour hour },
   { batteryLevel := (mathRound (batteryLevel * 10) : ℚ) / 10
     voltage := (mathRound (voltage * 100) : ℚ) / 100
     current := (mathRound (netCurrent * 100) : ℚ) / 100
     powerConsumption := (mathRound (powerConsumption * 100) : ℚ) / 100
     solarGeneration := (mathRound (solarGeneration * 100) : ℚ) / 100
     temperature := (mathRound (temperature * 10) : ℚ) / 10
     timeOfDay := hour
     isDaytime := isDaytime hour
     timestamp := inp.stamp })

/-- The source's `generateReading`: `none` stands for the `null` of an unknown household. -/
def generateReading (e : Engine) (householdId : ℕ) (inp : TickInput) :
    Engine × Option Reading :=
  match mapGet e.sensorStates householdId with
  | none => (e, none)
  | some state =>
    let r := tickBody state inp
    ({ e with sensorStates := mapSet e.sensorStates householdId r.1 }, some r.2)

/-- A call `callback(reading)`: the sink and its argument are appended to the log. -/
def deliver (e : Engine) (callback : ℕ) (reading : Option Reading) : Engine :=
  { e with delivered := e.delivered ++ [(callback, reading)] }

/-- The closure handed to `setInterval`: generate a reading and pass it to the sink. -/
def intervalBody (e : Engine) (householdId callback : ℕ) (inp : TickInput) : Engine :=
  let r := generateReading e householdId inp
  deliver r.1 callback r.2

/-- The `initialState` object of `startSimulation`. -/
def initialState (inp : StartInput) : SensorState :=
  { batteryLevel := (mathFloor (inp.levelDraw * 60) : ℚ) + 40
    voltage := 12.0
    current := 0.5
    powerConsumption := 0
    solarGeneration := 0
    temperature := 25
    lastUpdate := inp.now
    timeOfDay := getTimeOfDay inp.localHour }

/-- The source's `startSimulation`. -/
def startSimulation (e : Engine) (householdId callback : ℕ) (inp : StartInput) : Engine :=
  let e1 : Engine :=
    { e with sensorStates := mapSet e.sensorStates householdId (initialState inp) }
  let e2 := intervalBody e1 householdId callback inp.first
  let interval := e2.nextHandle
  let timer : Timer :=
    { handle := interval, householdId := householdId, callback := callback, period := 5000 }
  let e3 : Engine := { e2 with timers := e2.timers ++ [timer], nextHandle := e2.nextHandle + 1 }
  { e3 with simulations := mapSet e3.simulations householdId interval }

/-- The host's `clearInterval`. -/
def clearInterval (e : Engine) (interval : ℕ) : Engine :=
  { e with timers := e.timers.filter (fun t => t.handle ≠ interval) }

/-- The source's `stopSimulation`; an interval handle is an object, hence truthy. -/
def stopSimulation (e : Engine) (householdId : ℕ) : Engine :=
  match mapGet e.simulations householdId with
  | none => e
  | some interval =>
    let e1 := clearInterval e interval
    { e1 with
      simulations := mapDelete e1.simulations householdId
      sensorStates := mapDelete e1.sensorStates householdId }

/-- The source's `stopAllSimulations`: every key of `simulations` is visited once. -/
def stopAllSimulations (e : Engine) : Engine :=
  (mapKeys e.simulations).foldl stopSimulation e

/-- The source's `setBatteryLevel` for a finite `level`, with its boolean result; what it
stores for any number, `NaN` included, is `overrideLevel`. -/
def setBatteryLevel (e : Engine) (householdId : ℕ) (level : ℚ) : Engine × Bool :=
  match mapGet e.sensorStates householdId with
  | some state =>
    let state1 : SensorState := { state with batteryLevel := mathMax 0 (mathMin 100 level) }
    ({ e with sensorStates := mapSet e.sensorStates householdId state1 }, true)
  | none => (e, false)

/-- The source's `simulatePowerCut`, with its boolean result. -/
def simulatePowerCut (e : Engine) (householdId : ℕ) : Engine × Bool :=
  match mapGet e.sensorStates householdId with
  | some state =>
    let state1 : SensorState :=
      { state with solarGeneration := 0, powerConsumption := state.powerConsumption * 0.1 }
    ({ e with sensorStates := mapSet e.sensorStates householdId state1 }, true)
  | none => (e, false)

/-- The host firing interval `handle`: its closure runs if the interval is still live. -/
def fireTimer (e : Engine) (handle : ℕ) (inp : TickInput) : Engine :=
  match e.timers.find? (fun t => t.handle = handle) with
  | none => e
  | some t => intervalBody e t.householdId t.callback inp

/-! ## Traces of calls -/

/-- One step of a run: a call into the simulator, or the host firing an interval. -/
inductive Op
  | start (householdId callback : ℕ) (inp : StartInput)
  | stop (householdId : ℕ)
  | stopAll
  | tick (householdId : ℕ) (inp : TickInput)
  | fire (handle : ℕ) (inp : TickInput)
  | setLevel (householdId : ℕ) (level : ℚ)
  | powerCut (householdId : ℕ)

/-- The engine after one step. -/
def step (e : Engine) : Op → Engine
  | Op.start householdId callback inp => startSimulation e householdId callback inp
  | Op.stop householdId => stopSimulation e householdId
  | Op.stopAll => stopAllSimulations e
  | Op.tick householdId inp => (generateReading e householdId inp).1
  | Op.fire handle inp => fireTimer e handle inp
  | Op.setLevel householdId level => (setBatteryLevel e householdId level).1
  | Op.powerCut householdId => (simulatePowerCut e householdId).1

/-- The engine after a sequence of steps. -/
def run (e : Engine) (ops : List Op) : Engine := ops.foldl step e

/-- The engine states a run can reach from the freshly constructed simulator. -/
def Reachable (e : Engine) : Prop := ∃ ops : List Op, run Engine.empty ops = e

/-! ## Specification-side notions and sample inputs -/

/-- Every stored state has its battery level in `[0, 100]`. -/
def LevelsClamped (e : Engine) : Prop :=
  ∀ p ∈ e.sensorStates, 0 ≤ p.2.batteryLevel ∧ p.2.batteryLevel ≤ 100

/-- Clamping as the specification words it: values below `lo` become `lo`, above `hi`, `hi`. -/
def clamp (x lo hi : ℚ) : ℚ := if x < lo then lo else if hi < x then hi else x

/-- A tick at clock reading 725000 ms (virtual hour 12) with all three draws at 0.5. -/
def noonTick : TickInput :=
  { now := 725000, solarNoise := 0.5, loadDraw := 0.5, ambientDraw := 0.5, stamp := 725000 }

/-- A tick at clock reading 360000 ms (virtual hour 6) whose solar noise draw is 0. -/
def dawnTick : TickInput :=
  { now := 360000, solarNoise := 0, loadDraw := 0.5, ambientDraw := 0.5, stamp := 360000 }

/-- A start at clock reading 720000 ms whose level draw 0.5 gives an initial level of 70. -/
def noonStart : StartInput :=
  { levelDraw := 0.5, now := 720000, localHour := 12
    first := { now := 720000, solarNoise := 0.5, loadDraw := 0, ambientDraw := 0.5,
               stamp := 720000 } }

/-- A stored state with battery level 50 that was last updated at clock reading 720000 ms. -/
def levelFifty : SensorState :=
  { batteryLevel := 50, voltage := 12.2, current := 0.5, powerConsumption := 0,
    solarGeneration := 0, temperature := 25, lastUpdate := 720000,
    timeOfDay := TimeOfDay.hour 12 }

/-- A tick at clock reading 1440000 ms (virtual hour 0) with all three draws at 0.5. -/
def midnightTick : TickInput :=
  { now := 1440000, solarNoise := 0.5, loadDraw := 0.5, ambientDraw := 0.5, stamp := 1440000 }

/-- The registry and the state map hold the same household ids. -/
def KeysAgree (e : Engine) : Prop :=
  ∀ id : ℕ, mapGet e.simulations id = none ↔ mapGet e.sensorStates id = none

/-- Every handle in use is below the next handle the host will give out. -/
def HandlesFresh (e : Engine) : Prop :=
  (∀ t ∈ e.timers, t.handle < e.nextHandle) ∧ (∀ p ∈ e.simulations, p.2 < e.nextHandle)

/-- A live interval whose handle is registered under a household was created for it. -/
def HandlesOwned (e : Engine) : Prop :=
  ∀ p ∈ e.simulations, ∀ t ∈ e.timers, t.handle = p.2 → t.householdId = p.1

/-- The structural invariant of the engine states that a run can reach. -/
def WellFormed (e : Engine) : Prop := KeysAgree e ∧ HandlesFresh e ∧ HandlesOwned e

/-- The second engine has the registry, the intervals, the handle counter and the key set of
the first; only stored values and the sink log may differ. -/
def SameShape (e e' : Engine) : Prop :=
  e'.simulations = e.simulations ∧ e'.timers = e.timers ∧ e'.nextHandle = e.nextHandle ∧
    ∀ id : ℕ, mapGet e'.sensorStates id = none ↔ mapGet e.sensorStates id = none

/-- Two households started one after the other from the empty engine. -/
def twoHouseholds : Engine :=
  run Engine.empty [Op.start 1 7 noonStart, Op.start 2 8 noonStart]

/-- A stored state at level 50 whose other fields differ from `levelFifty` and whose last
update is one virtual day (1440000 ms) later. -/
def levelFiftyNextDay : SensorState :=
  { batteryLevel := 50, voltage := 11.9, current := -1.2, powerConsumption := 1.7,
    solarGeneration := 0.4, temperature := 31, lastUpdate := 2160000,
    timeOfDay := TimeOfDay.night }

/-- The noon tick one virtual day after `noonTick`, with the same draws and another stamp. -/
def noonTickNextDay : TickInput :=
  { now := 2165000, solarNoise := 0.5, loadDraw := 0.5, ambientDraw := 0.5, stamp := 2165003 }

/-! ## Strings and arrays of the host language -/

/-- Whether a list of characters begins with the characters of `pattern`. -/
def listStartsWith : List Char → List Char → Bool
  | _, [] => true
  | [], _ :: _ => false
  | c :: s, p :: ps => c == p && listStartsWith s ps

/-- The result of `String.prototype.startsWith`. -/
def startsWith (s pattern : String) : Bool := listStartsWith s.toList pattern.toList

/-- The result of `s.replace('+', '')`: the first plus sign, if any, is removed. -/
def removeFirstPlus : List Char → List Char
  | [] => []
  | c :: cs => if c = '+' then cs else c :: removeFirstPlus cs

/-- The result of `s.split('*')` on the characters of `s`. -/
def splitOnStar : List Char → List (List Char)
  | [] => [[]]
  | c :: cs =>
    match splitOnStar cs with
    | [] => [[c]]
    | w :: ws => if c = '*' then [] :: w :: ws else (c :: w) :: ws

/-- The result of `xs.slice(start)`: a negative `start` counts from the end. -/
def arraySlice {α : Type} (xs : List α) (start : ℤ) : List α :=
  let len : ℤ := xs.length
  let k : ℤ := if start < 0 then max (len + start) 0 else min start len
  xs.drop k.toNat

/-- The array after `push(x)` followed by `shift()` when it then holds more than `cap`. -/
def pushCapped {α : Type} (xs : List α) (x : α) (cap : ℕ) : List α :=
  if (xs ++ [x]).length > cap then (xs ++ [x]).tail else xs ++ [x]

/-- The library functions that turn numbers and dates into text and text into numbers; their
results are not fixed by the repository. `parseInt` and `toNumber` (the conversion a comparison
applies to a string) give `none` for `NaN`; `substring s a b` is `s.substring(a, b)`, counted in
UTF-16 units. -/
structure Host where
  showNumber : ℚ → String
  toFixed2 : ℚ → String
  toLocaleDateString : ℤ → String
  toUpperCase : String → String
  parseInt : String → Option ℤ
  toNumber : String → Option ℚ
  substring : String → ℕ → ℕ → String

/-- What a `balance` field can hold: the routes store the value of the request body as it is,
so besides a number it may be a string. -/
inductive JsValue
  | num (q : ℚ)
  | str (s : String)
  deriving DecidableEq

/-- The value of `balance || 0`: zero and the empty string give 0. -/
def JsValue.orZero : JsValue → JsValue
  | JsValue.num q => JsValue.num q
  | JsValue.str s => if s = "" then JsValue.num 0 else JsValue.str s

/-- The value of `balance + amount` for a number `amount`: a sum on a number, a concatenation
on a string. -/
def JsValue.plus (host : Host) : JsValue → ℚ → JsValue
  | JsValue.num b, amount => JsValue.num (b + amount)
  | JsValue.str s, amount => JsValue.str (s ++ host.showNumber amount)

/-- The text of the value inside a template literal. -/
def JsValue.text (host : Host) : JsValue → String
  | JsValue.num q => host.showNumber q
  | JsValue.str s => s

/-- The result of `balance.toFixed(2)`; `none` when the call throws, a string having no
`toFixed`. -/
def JsValue.toFixed2 (host : Host) : JsValue → Option String
  | JsValue.num q => some (host.toFixed2 q)
  | JsValue.str _ => none

/-- The result of `balance >= bound`; a string is converted to a number first. -/
def JsValue.atLeast (host : Host) (v : JsValue) (bound : ℚ) : Bool :=
  match v with
  | JsValue.num q => decide (q ≥ bound)
  | JsValue.str s =>
    match host.toNumber s with
    | some q => decide (q ≥ bound)
    | none => false

/-! ## The in-memory database (`services/database.js`) -/

/-- A household object. Name, phone and location are strings. The balance is a number or a
string. The power status is a string, or `none` for a value that is not one (the `undefined`
that the power route stores when the request names no action). -/
structure Household where
  id : ℕ
  name : String
  phone : String
  location : String
  balance : JsValue
  powerStatus : Option String
  createdAt : ℤ
  lastSeen : ℤ
  deriving DecidableEq

/-- A stored reading `{...data, timestamp, id}`: the data with its time stamp replaced, and
the id. -/
structure StoredReading where
  data : Reading
  id : ℤ
  deriving DecidableEq

/-- A stored alert. -/
structure Alert where
  id : ℤ
  alertType : String
  message : String
  timestamp : ℤ
  read : Bool
  deriving DecidableEq

/-- A stored payment. -/
structure Payment where
  id : ℤ
  amount : ℚ
  method : String
  timestamp : ℤ
  status : String
  deriving DecidableEq

/-- The database object; a household is found by its own `id` field. -/
structure Database where
  households : List Household
  sensorData : List (ℕ × List StoredReading)
  alerts : List (ℕ × List Alert)
  payments : List (ℕ × List Payment)
  nextId : ℕ

/-- The four maps empty and `nextId` at 1, before any household is created. -/
def Database.empty : Database :=
  { households := [], sensorData := [], alerts := [], payments := [], nextId := 1 }

/-- The fields of the argument of `createHousehold`. -/
structure HouseholdData where
  name : String
  phone : String
  location : String
  balance : JsValue

/-- The first household with the given id is replaced by its image under `f`. -/
def updateHouseholdWith (f : Household → Household) (id : ℕ) : List Household → List Household
  | [] => []
  | h :: rest => if h.id = id then f h :: rest else h :: updateHouseholdWith f id rest

/-- The source's `createHousehold`; `created` and `seen` are its two `new Date()` readings. -/
def createHousehold (db : Database) (data : HouseholdData) (created seen : ℤ) :
    Database × Household :=
  let household : Household :=
    { id := db.nextId, name := data.name, phone := data.phone, location := data.location,
      balance := data.balance.orZero, powerStatus := some "on", createdAt := created,
      lastSeen := seen }
  ({ households := db.households ++ [household]
     sensorData := mapSet db.sensorData household.id []
     alerts := mapSet db.alerts household.id []
     payments := mapSet db.payments household.id []
     nextId := db.nextId + 1 }, household)

/-- The source's `getHousehold`. -/
def getHousehold (db : Database) (id : ℕ) : Option Household :=
  db.households.find? (fun h => h.id = id)

/-- The source's `getAllHouseholds`. -/
def getAllHouseholds (db : Database) : List Household := db.households

/-- The source's `addSensorReading`; `stamp` is `new Date()`, `now` is `Date.now()`. -/
def addSensorReading (db : Database) (householdId : ℕ) (data : Reading) (stamp now : ℤ) :
    Database × StoredReading :=
  let readings := (mapGet db.sensorData householdId).getD []
  let reading : StoredReading := { data := { data with timestamp := stamp }, id := now }
  let readings1 := pushCapped readings reading 100
  ({ db with sensorData := mapSet db.sensorData householdId readings1 }, reading)

/-- The source's `getSensorReadings`; the caller's `limit` (50 when left out) is explicit. -/
def getSensorReadings (db : Database) (householdId : ℕ) (limit : ℤ) : List StoredReading :=
  arraySlice ((mapGet db.sensorData householdId).getD []) (-limit)

/-- The source's `getLastSensorReading`; `none` stands for `null`. -/
def getLastSensorReading (db : Database) (householdId : ℕ) : Option StoredReading :=
  ((mapGet db.sensorData householdId).getD []).getLast?

/-- The source's `addAlert`; `now` is `Date.now()`, `stamp` is `new Date()`. -/
def addAlert (db : Database) (householdId : ℕ) (alertType message : String) (now stamp : ℤ) :
    Database × Alert :=
  let alerts := (mapGet db.alerts householdId).getD []
  let alert : Alert :=
    { id := now, alertType := alertType, message := message, timestamp := stamp, read := false }
  let alerts1 := pushCapped alerts alert 50
  ({ db with alerts := mapSet db.alerts householdId alerts1 }, alert)

/-- The source's `getAlerts`. -/
def getAlerts (db : Database) (householdId : ℕ) : List Alert :=
  (mapGet db.alerts householdId).getD []

/-- The source's `addPayment` for a number `amount`; `now` is `Date.now()`, `stamp` and `seen`
are `new Date()`. -/
def addPayment (host : Host) (db : Database) (householdId : ℕ) (amount : ℚ) (method : String)
    (now stamp seen : ℤ) : Database × Payment :=
  let payments := (mapGet db.payments householdId).getD []
  let payment : Payment :=
    { id := now, amount := amount, method := method, timestamp := stamp,
      status := "completed" }
  let credit : Household → Household :=
    fun h => { h with balance := h.balance.plus host amount, lastSeen := seen }
  let households := updateHouseholdWith credit householdId db.households
  ({ db with households := households
             payments := mapSet db.payments householdId (payments ++ [payment]) }, payment)

/-- The source's `getPayments`. -/
def getPayments (db : Database) (householdId : ℕ) : List Payment :=
  (mapGet db.payments householdId).getD []

/-- The source's `setPowerStatus`. -/
def setPowerStatus (db : Database) (householdId : ℕ) (status : Option String) (seen : ℤ) :
    Database :=
  let switch : Household → Household :=
    fun h => { h with powerStatus := status, lastSeen := seen }
  { db with households := updateHouseholdWith switch householdId db.households }

/-! ## The USSD service (`services/africasTalking.js`) -/

/-- The object returned by `handleUSSD` and its menu helpers. -/
structure UssdResult where
  response : String
  endSession : Bool
  deriving DecidableEq

/-- What a USSD request reads from its environment: whether `processAirtimePayment` reports
success, and the clock readings of `addPayment` and `setPowerStatus`. -/
structure UssdInput where
  airtimeOk : Bool
  now : ℤ
  stamp : ℤ
  seen : ℤ

/-- The source's `formatPhoneNumber`. -/
def formatPhoneNumber (phoneNumber : String) : String :=
  let cleaned := phoneNumber.toList.filter Char.isDigit
  let cleaned :=
    if listStartsWith cleaned ['0'] then ['2', '5', '4'] ++ cleaned.drop 1
    else if listStartsWith cleaned ['7'] || listStartsWith cleaned ['1'] then
      ['2', '5', '4'] ++ cleaned
    else if !listStartsWith cleaned ['2', '5', '4'] then ['2', '5', '4'] ++ cleaned
    else cleaned
  String.mk ('+' :: cleaned)

/-- The household lookup of `handleUSSD` (lines 80-93): by formatted phone, then without the
plus sign, then by the raw phone. -/
def findHouseholdByPhone (db : Database) (phoneNumber : String) : Option Household :=
  let rawPhone := phoneNumber
  let formattedPhone := formatPhoneNumber phoneNumber
  let households := getAllHouseholds db
  match households.find? (fun h => h.phone = formattedPhone) with
  | some h => some h
  | none =>
    let phoneWithoutPlus := removeFirstPlus formattedPhone.toList
    match households.find? (fun h => removeFirstPlus h.phone.toList = phoneWithoutPlus) with
    | some h => some h
    | none => households.find? (fun h => h.phone = rawPhone)

/-- The `menuPath` of `handleUSSD`: `text.split('*').filter(item => item !== '')`. -/
def menuPathOf (text : String) : List String :=
  ((splitOnStar text.toList).filter (fun item => item ≠ [])).map String.mk

/-- The `amount` selected by the `switch` of `handlePaymentMenu` (lines 211-228); `none` when
the switch returns the "Enter amount" prompt instead. -/
def selectedAmount (host : Host) (menuPath : List String) : Option ℤ :=
  match menuPath[1]? with
  | some "1" => some 50
  | some "2" => some 100
  | some "3" => some 200
  | some "4" =>
    if menuPath.length = 2 then none
    else some (((menuPath[2]?).bind host.parseInt).getD 0)
  | _ => some 0

/-- The result of `powerStatus.toUpperCase()`; `none` when the call throws, the value not
being a string. -/
def upperStatus (host : Host) (powerStatus : Option String) : Option String :=
  powerStatus.map host.toUpperCase

/-- The object returned by the `catch` block of `handleUSSD` (lines 193-200). -/
def serviceUnavailable : UssdResult :=
  { response := "END Service temporarily unavailable. Please try again later."
    endSession := true }

/-- The source's `handlePaymentMenu`; the result is `none` when it throws: the household it
re-reads after the payment is missing, or its balance has no `toFixed`. The `phoneNumber`
argument only reaches `processAirtimePayment`, whose outcome is `inp.airtimeOk`. -/
def handlePaymentMenu (host : Host) (menuPath : List String) (household : Household)
    (db : Database) (inp : UssdInput) : Database × Option UssdResult :=
  if menuPath.length = 1 then
    (db, some { response := "CON Pay with Airtime\nSelect amount:\n1. KES 50\n2. KES 100\n3. KES 200\n4. Custom amount"
                endSession := false })
  else
    match selectedAmount host menuPath with
    | none => (db, some { response := "CON Enter amount (KES):", endSession := false })
    | some amount =>
      if amount > 0 ∧ amount ≤ 1000 then
        if inp.airtimeOk then
          let db1 :=
            (addPayment host db household.id amount "airtime" inp.now inp.stamp inp.seen).1
          match (getHousehold db1 household.id).bind
              (fun updatedHousehold => updatedHousehold.balance.toFixed2 host) with
          | none => (db1, none)
          | some newBalance =>
            (db1, some
              { response := "END Payment successful!\nKES " ++ host.showNumber amount ++
                  " added to your SolarPay account.\nNew balance: KES " ++ newBalance
                endSession := true })
        else
          (db, some { response := "END Payment failed. Please ensure you have sufficient airtime and try again."
                      endSession := true })
      else
        (db, some { response := "END Invalid amount. Please enter between KES 1-1000."
                    endSession := true })

/-- The `message` of the status choice of `handlePowerControl`; `none` when building it
throws: the household it re-reads is missing, its power status is not a string, or its balance
has no `toFixed`. -/
def powerStatusMessage (host : Host) (db : Database) (householdId : ℕ) : Option String :=
  match getHousehold db householdId with
  | none => none
  | some updatedHousehold =>
    match upperStatus host updatedHousehold.powerStatus,
        updatedHousehold.balance.toFixed2 host with
    | some status, some balance =>
      some ("Power status: " ++ status ++ "\nBalance: KES " ++ balance)
    | _, _ => none

/-- The source's `handlePowerControl`; the result is `none` when it throws. -/
def handlePowerControl (host : Host) (menuPath : List String) (household : Household)
    (db : Database) (inp : UssdInput) : Database × Option UssdResult :=
  if menuPath.length = 1 then
    match upperStatus host household.powerStatus with
    | none => (db, none)
    | some status =>
      (db, some { response := "CON Power Control\nCurrent: " ++ status ++
                      "\n1. Turn ON\n2. Turn OFF\n3. Check Status"
                  endSession := false })
  else
    match menuPath[1]? with
    | some "1" =>
      if household.balance.atLeast host 10 then
        (setPowerStatus db household.id (some "on") inp.seen,
          some { response := "END " ++ "Power turned ON successfully.", endSession := true })
      else
        (db, some { response := "END " ++ "Insufficient balance. Minimum KES 10 required."
                    endSession := true })
    | some "2" =>
      (setPowerStatus db household.id (some "off") inp.seen,
        some { response := "END " ++ "Power turned OFF successfully.", endSession := true })
    | some "3" =>
      match powerStatusMessage host db household.id with
      | none => (db, none)
      | some message => (db, some { response := "END " ++ message, endSession := true })
    | _ => (db, some { response := "END " ++ "Invalid option.", endSession := true })

/-- The text of the alerts choice of `handleUSSD`: the last three alerts, newest first. -/
def alertText (host : Host) (alerts : List Alert) : String :=
  "\n".intercalate (((arraySlice alerts (-3)).reverse).map
    (fun alert => alert.alertType ++ ": " ++ host.substring alert.message 0 50 ++ "..."))

/-- The source's `handleUSSD`. An error thrown in its own body is caught and answered with
`serviceUnavailable`; the result of a menu helper is returned without `await`, so when the
helper throws the promise is rejected and no result comes back: `none`. Session id and service
code are only logged. -/
def handleUSSD (host : Host) (db : Database) (sessionId serviceCode phoneNumber text : String)
    (inp : UssdInput) : Database × Option UssdResult :=
  match findHouseholdByPhone db phoneNumber with
  | none =>
    (db, some { response := "END Sorry, your phone number is not registered with SolarPay.\nContact support or check registration."
                endSession := true })
  | some household =>
    let menuPath := menuPathOf text
    if menuPath.length = 0 then
      (db, some { response := "CON Welcome to SolarPay, " ++ household.name ++
                      "\n1. Check Battery Level\n2. Check Balance\n3. Pay with Airtime\n4. Power Control\n5. View Alerts"
                  endSession := false })
    else
      match menuPath[0]? with
      | some "1" =>
        match getLastSensorReading db household.id with
        | none =>
          match upperStatus host household.powerStatus with
          | none => (db, some serviceUnavailable)
          | some status =>
            (db, some { response := "END SolarPay Battery Status\nNo sensor data available\nPower: " ++
                            status
                        endSession := true })
        | some lastReading =>
          let batteryInfo := "Battery: " ++ host.showNumber lastReading.data.batteryLevel ++
            "%\nVoltage: " ++ host.showNumber lastReading.data.voltage ++ "V\nStatus: " ++
            (if lastReading.data.batteryLevel > 20 then "Good" else "Low")
          match upperStatus host household.powerStatus with
          | none => (db, some serviceUnavailable)
          | some status =>
            (db, some { response := "END SolarPay Battery Status\n" ++ batteryInfo ++
                            "\nPower: " ++ status
                        endSession := true })
      | some "2" =>
        let payments := getPayments db household.id
        let lastPaymentText :=
          match payments.getLast? with
          | some lastPayment =>
            "\nLast top-up: KES " ++ host.showNumber lastPayment.amount ++ " on " ++
              host.toLocaleDateString lastPayment.timestamp
          | none => ""
        match household.balance.toFixed2 host with
        | none => (db, some serviceUnavailable)
        | some balance =>
          (db, some { response := "END SolarPay Balance\nCurrent: KES " ++ balance ++
                          lastPaymentText
                      endSession := true })
      | some "3" => handlePaymentMenu host menuPath household db inp
      | some "4" => handlePowerControl host menuPath household db inp
      | some "5" =>
        let alerts := getAlerts db household.id
        if (arraySlice alerts (-3)).reverse.length = 0 then
          (db, some { response := "END No recent alerts.", endSession := true })
        else
          (db, some { response := "END Recent Alerts:\n" ++ alertText host alerts
                      endSession := true })
      | _ => (db, some { response := "END Invalid option. Please try again."
                         endSession := true })

/-! ## The sink of `initializeSystem` (`server.js`) -/

/-- The outcome of one `sendSMS` call and the clock readings of the `addAlert` after it. -/
structure SmsOutcome where
  ok : Bool
  now : ℤ
  stamp : ℤ

/-- What the sink reads from its environment: the clock readings of `addSensorReading` and the
outcome of each of the three possible SMS sends. -/
structure SinkInput where
  stamp : ℤ
  now : ℤ
  low : SmsOutcome
  critical : SmsOutcome
  full : SmsOutcome

/-- One `try { await sendSMS; addAlert } catch` block of `checkAndSendAlerts`. -/
def sendAndRecord (db : Database) (householdId : ℕ) (alertType message : String)
    (sms : SmsOutcome) : Database :=
  if sms.ok then (addAlert db householdId alertType message sms.now sms.stamp).1 else db

/-- The source's `checkAndSendAlerts`, run to completion without interleaving. -/
def checkAndSendAlerts (host : Host) (db : Database) (householdId : ℕ) (sensorData : Reading)
    (inp : SinkInput) : Database :=
  match getHousehold db householdId with
  | none => db
  | some household =>
    let db1 :=
      if sensorData.batteryLevel ≤ 20 ∧ sensorData.batteryLevel > 15 then
        sendAndRecord db householdId "low_battery"
          ("⚠️ SolarPay Alert: Your battery is at " ++ host.showNumber sensorData.batteryLevel ++
            "%, recharge soon. Balance: KES " ++ household.balance.text host) inp.low
      else db
    let db2 :=
      if sensorData.batteryLevel ≤ 5 ∧ sensorData.batteryLevel > 0 then
        sendAndRecord db1 householdId "critical_battery"
          ("🔴 SolarPay Critical: Battery at " ++ host.showNumber sensorData.batteryLevel ++
            "%! Power will be limited soon. Top up now: Dial *123#") inp.critical
      else db1
    if sensorData.batteryLevel ≥ 100 then
      match getLastSensorReading db2 householdId with
      | none => db2
      | some lastReading =>
        if lastReading.data.batteryLevel < 100 then
          sendAndRecord db2 householdId "battery_full"
            "✅ SolarPay: Your solar battery is fully charged! Good sunshine today." inp.full
        else db2
    else db2

/-- The sink that `initializeSystem` hands to `startSimulation`: store the reading, then check
for alerts (the broadcast to web-socket clients does not touch the database). -/
def sensorSink (host : Host) (db : Database) (householdId : ℕ) (sensorData : Reading)
    (inp : SinkInput) : Database :=
  let db1 := (addSensorReading db householdId sensorData inp.stamp inp.now).1
  checkAndSendAlerts host db1 householdId sensorData inp

/-- The argument and clock readings of one `addSensorReading` call. -/
structure AddInput where
  data : Reading
  stamp : ℤ
  now : ℤ

/-- The stored object that `addSensorReading` builds from one call's inputs. -/
def storedOf (x : AddInput) : StoredReading :=
  { data := { x.data with timestamp := x.stamp }, id := x.now }

/-- The database after a sequence of `addSensorReading` calls for one household. -/
def addAllReadings (db : Database) (householdId : ℕ) (xs : List AddInput) : Database :=
  xs.foldl (fun d x => (addSensorReading d householdId x.data x.stamp x.now).1) db

/-- The last `n` elements of a list, in order. -/
def lastN {α : Type} (n : ℕ) (xs : List α) : List α := xs.drop (xs.length - n)

/-- A reading with the given battery level; the other fields are those of a night tick. -/
def readingAt (level : ℚ) : Reading :=
  { batteryLevel := level, voltage := 12.8, current := -0.3, powerConsumption := 0.3,
    solarGeneration := 0, temperature := 20.6, timeOfDay := 0, isDaytime := false,
    timestamp := 0 }

/-- A database with one freshly created household (id 1, balance 150, no readings). -/
def freshDb : Database :=
  (createHousehold Database.empty
    { name := "Cheptoo", phone := "+254710677582", location := "Bomet County",
      balance := JsValue.num 150 } 0 0).1

/-- The household of `freshDb`. -/
def cheptoo : Household :=
  { id := 1, name := "Cheptoo", phone := "+254710677582", location := "Bomet County",
    balance := JsValue.num 150, powerStatus := some "on", createdAt := 0, lastSeen := 0 }

/-- A database with one household (id 1) created with the string "100" as its balance, as the
route that creates households stores it from a request body `{"balance": "100"}`. -/
def textBalanceDb : Database :=
  (createHousehold Database.empty
    { name := "Akinyi Household", phone := "+254700000002", location := "Kisumu County",
      balance := JsValue.str "100" } 0 0).1

/-- The household of `textBalanceDb`. -/
def akinyi : Household :=
  { id := 1, name := "Akinyi Household", phone := "+254700000002",
    location := "Kisumu County", balance := JsValue.str "100", powerStatus := some "on",
    createdAt := 0, lastSeen := 0 }

/-- Two readings to be added one after the other. -/
def twoReadings : List AddInput :=
  [{ data := readingAt 60, stamp := 1, now := 2 }, { data := readingAt 61, stamp := 3, now := 4 }]

/-- A database with one household (id 1) whose only stored reading has battery level 99.9. -/
def almostFullDb : Database := (addSensorReading freshDb 1 (readingAt 99.9) 10 10).1

/-- Clock readings for a sink call in which every SMS send succeeds. -/
def allSmsOk : SinkInput :=
  { stamp := 20, now := 20, low := { ok := true, now := 21, stamp := 21 },
    critical := { ok := true, now := 22, stamp := 22 },
    full := { ok := true, now := 23, stamp := 23 } }

/-- A USSD result is well tagged when a continuing session begins with "CON " and an ending
one with "END ". -/
def Tagged (r : UssdResult) : Prop :=
  (r.endSession = false ∧ startsWith r.response "CON " = true) ∨
    (r.endSession = true ∧ startsWith r.response "END " = true)

/-- A request whose airtime payment succeeds. -/
def paidInput : UssdInput := { airtimeOk := true, now := 5, stamp := 6, seen := 7 }

/-- A sample host: a whole number is printed in decimal (with ".00" for `toFixed2`), and
`parseInt` always gives 7500. -/
def sampleHost : Host :=
  { showNumber := fun q => toString q.num, toFixed2 := fun q => toString q.num ++ ".00",
    toLocaleDateString := fun _ => "d", toUpperCase := fun s => s,
    parseInt := fun _ => some 7500, toNumber := fun _ => none, substring := fun s _ _ => s }

/-- The payment object that `addPayment` builds for an airtime top-up of `amount`. -/
def airtimePayment (inp : UssdInput) (amount : ℚ) : Payment :=
  { id := inp.now, amount := amount, method := "airtime", timestamp := inp.stamp,
    status := "completed" }

/-- Every household holds a number as its balance and a string as its power status. -/
def TypedHouseholds (db : Database) : Prop :=
  ∀ h ∈ db.households, (∃ q : ℚ, h.balance = JsValue.num q) ∧ (∃ s : String, h.powerStatus = some s)

/-! ## Numbers of the host language with their special values -/

/-- A number of the host language: a finite value, an infinity, or `NaN` (which is also what
`undefined` and a non-numeric string become where a number is expected). -/
inductive JsNumber
  | finite (q : ℚ)
  | posInf
  | negInf
  | nan
  deriving DecidableEq

/-- The result of `Math.min` on any two numbers: `NaN` as soon as one argument is. -/
def JsNumber.mathMin : JsNumber → JsNumber → JsNumber
  | JsNumber.nan, _ => JsNumber.nan
  | _, JsNumber.nan => JsNumber.nan
  | JsNumber.negInf, _ => JsNumber.negInf
  | _, JsNumber.negInf => JsNumber.negInf
  | JsNumber.posInf, y => y
  | x, JsNumber.posInf => x
  | JsNumber.finite a, JsNumber.finite b => JsNumber.finite (min a b)

/-- The result of `Math.max` on any two numbers: `NaN` as soon as one argument is. -/
def JsNumber.mathMax : JsNumber → JsNumber → JsNumber
  | JsNumber.nan, _ => JsNumber.nan
  | _, JsNumber.nan => JsNumber.nan
  | JsNumber.posInf, _ => JsNumber.posInf
  | _, JsNumber.posInf => JsNumber.posInf
  | JsNumber.negInf, y => y
  | x, JsNumber.negInf => x
  | JsNumber.finite a, JsNumber.finite b => JsNumber.finite (max a b)

/-- The sum of any number and a finite one. -/
def JsNumber.addFinite : JsNumber → ℚ → JsNumber
  | JsNumber.finite a, d => JsNumber.finite (a + d)
  | JsNumber.posInf, _ => JsNumber.posInf
  | JsNumber.negInf, _ => JsNumber.negInf
  | JsNumber.nan, _ => JsNumber.nan

/-- The result of `x <= y`: false as soon as one side is `NaN`. -/
def JsNumber.le : JsNumber → JsNumber → Bool
  | JsNumber.nan, _ => false
  | _, JsNumber.nan => false
  | JsNumber.negInf, _ => true
  | _, JsNumber.posInf => true
  | JsNumber.posInf, _ => false
  | _, JsNumber.negInf => false
  | JsNumber.finite a, JsNumber.finite b => decide (a ≤ b)

/-- The level that `setBatteryLevel` stores for any number `level` (line 135):
`Math.max(0, Math.min(100, level))`. -/
def overrideLevel (level : JsNumber) : JsNumber :=
  JsNumber.mathMax (JsNumber.finite 0) (JsNumber.mathMin (JsNumber.finite 100) level)

/-- The level that a tick stores from any stored level (line 84):
`Math.max(0, Math.min(100, state.batteryLevel + deltaCharge))`, the `deltaCharge` of a tick
being finite. -/
def tickLevel (batteryLevel : JsNumber) (deltaCharge : ℚ) : JsNumber :=
  JsNumber.mathMax (JsNumber.finite 0)
    (JsNumber.mathMin (JsNumber.finite 100) (batteryLevel.addFinite deltaCharge))

/-- A write to the stored level of one device: an override with a level, or a tick with its
`deltaCharge`. -/
inductive LevelWrite
  | override (level : JsNumber)
  | tick (deltaCharge : ℚ)

/-- The stored level of one device after a sequence of writes. -/
def levelAfter (batteryLevel : JsNumber) (writes : List LevelWrite) : JsNumber :=
  writes.foldl (fun level w =>
    match w with
    | LevelWrite.override l => overrideLevel l
    | LevelWrite.tick d => tickLevel level d) batteryLevel

/-! ## Facts about maps -/

theorem mapGet_mapSet_self {β : Type} (m : List (ℕ × β)) (key : ℕ) (val : β) :
    mapGet (mapSet m key val) key = some val := by
  induction m with
  | nil => simp [mapSet, mapGet]
  | cons p rest ih =>
    obtain ⟨k, v⟩ := p
    by_cases hk : k = key
    · simp [mapSet, mapGet, hk]
    · simp [mapSet, mapGet, hk, ih]

theorem mapSet_mapSet {β : Type} (m : List (ℕ × β)) (key : ℕ) (v1 v2 : β) :
    mapSet (mapSet m key v1) key v2 = mapSet m key v2 := by
  induction m with
  | nil => simp [mapSet]
  | cons p rest ih =>
    obtain ⟨k, v⟩ := p
    by_cases hk : k = key
    · simp [mapSet, hk]
    · simp [mapSet, hk, ih]

theorem mem_mapSet {β : Type} (m : List (ℕ × β)) (key : ℕ) (val : β) (p : ℕ × β)
    (hp : p ∈ mapSet m key val) : p = (key, val) ∨ p ∈ m := by
  induction m with
  | nil =>
    left
    simpa [mapSet] using hp
  | cons q rest ih =>
    obtain ⟨k, v⟩ := q
    by_cases hk : k = key
    · simp only [mapSet, hk, if_true, List.mem_cons] at hp
      rcases hp with hp | hp
      · exact Or.inl hp
      · exact Or.inr (List.mem_cons_of_mem _ hp)
    · simp only [mapSet, hk, if_false, List.mem_cons] at hp
      rcases hp with hp | hp
      · exact Or.inr (hp ▸ List.mem_cons_self _ _)
      · rcases ih hp with h | h
        · exact Or.inl h
        · exact Or.inr (List.mem_cons_of_mem _ h)

theorem mem_mapDelete {β : Type} (m : List (ℕ × β)) (key : ℕ) (p : ℕ × β)
    (hp : p ∈ mapDelete m key) : p ∈ m := by
  induction m with
  | nil => simp [mapDelete] at hp
  | cons q rest ih =>
    obtain ⟨k, v⟩ := q
    by_cases hk : k = key
    · simp only [mapDelete, hk, if_true] at hp
      exact List.mem_cons_of_mem _ (ih hp)
    · simp only [mapDelete, hk, if_false, List.mem_cons] at hp
      rcases hp with hp | hp
      · exact hp ▸ List.mem_cons_self _ _
      · exact List.mem_cons_of_mem _ (ih hp)

/-! ## The clamp invariant -/

theorem tickBody_level_clamped (state : SensorState) (inp : TickInput) :
    0 ≤ (tickBody state inp).1.batteryLevel ∧ (tickBody state inp).1.batteryLevel ≤ 100 := by
  simp only [tickBody, mathMax, mathMin]
  exact ⟨le_max_left _ _, max_le (by norm_num) (min_le_left _ _)⟩

theorem generateReading_clamped (e : Engine) (householdId : ℕ) (inp : TickInput)
    (h : LevelsClamped e) : LevelsClamped (generateReading e householdId inp).1 := by
  unfold generateReading
  cases hg : mapGet e.sensorStates householdId with
  | none => simpa using h
  | some state =>
    intro p hp
    rcases mem_mapSet _ _ _ _ hp with hp | hp
    · rw [hp]
      exact tickBody_level_clamped state inp
    · exact h p hp

theorem startSimulation_states (e : Engine) (householdId callback : ℕ) (inp : StartInput) :
    (startSimulation e householdId callback inp).sensorStates =
      mapSet e.sensorStates householdId (tickBody (initialState inp) inp.first).1 := by
  simp only [startSimulation, intervalBody, deliver, generateReading, mapGet_mapSet_self,
    mapSet_mapSet]

theorem startSimulation_clamped (e : Engine) (householdId callback : ℕ) (inp : StartInput)
    (h : LevelsClamped e) : LevelsClamped (startSimulation e householdId callback inp) := by
  intro p hp
  rw [startSimulation_states] at hp
  rcases mem_mapSet _ _ _ _ hp with hp | hp
  · rw [hp]
    exact tickBody_level_clamped _ inp.first
  · exact h p hp

theorem stopSimulation_clamped (e : Engine) (householdId : ℕ) (h : LevelsClamped e) :
    LevelsClamped (stopSimulation e householdId) := by
  unfold stopSimulation
  cases hg : mapGet e.simulations householdId with
  | none => simpa using h
  | some interval =>
    intro p hp
    exact h p (mem_mapDelete _ _ _ hp)

theorem foldl_stop_clamped (keys : List ℕ) (e : Engine) (h : LevelsClamped e) :
    LevelsClamped (keys.foldl stopSimulation e) := by
  induction keys generalizing e with
  | nil => simpa using h
  | cons k rest ih => exact ih _ (stopSimulation_clamped e k h)

theorem setBatteryLevel_clamped (e : Engine) (householdId : ℕ) (level : ℚ)
    (h : LevelsClamped e) : LevelsClamped (setBatteryLevel e householdId level).1 := by
  unfold setBatteryLevel
  cases hg : mapGet e.sensorStates householdId with
  | none => simpa using h
  | some state =>
    intro p hp
    rcases mem_mapSet _ _ _ _ hp with hp | hp
    · rw [hp]
      simp only [mathMax, mathMin]
      exact ⟨le_max_left _ _, max_le (by norm_num) (min_le_left _ _)⟩
    · exact h p hp

theorem mem_of_mapGet {β : Type} (m : List (ℕ × β)) (key : ℕ)
    (state : β) (hg : mapGet m key = some state) : (key, state) ∈ m := by
  induction m with
  | nil => simp [mapGet] at hg
  | cons q rest ih =>
    obtain ⟨k, v⟩ := q
    by_cases hk : k = key
    · simp only [mapGet, hk, if_true, Option.some.injEq] at hg
      simp [hk, hg]
    · simp only [mapGet, hk, if_false] at hg
      exact List.mem_cons_of_mem _ (ih hg)

theorem simulatePowerCut_clamped (e : Engine) (householdId : ℕ)
    (h : LevelsClamped e) : LevelsClamped (simulatePowerCut e householdId).1 := by
  unfold simulatePowerCut
  cases hg : mapGet e.sensorStates householdId with
  | none => simpa using h
  | some state =>
    intro p hp
    rcases mem_mapSet _ _ _ _ hp with hp | hp
    · rw [hp]
      exact h (householdId, state) (mem_of_mapGet _ _ _ hg)
    · exact h p hp

theorem fireTimer_clamped (e : Engine) (handle : ℕ) (inp : TickInput)
    (h : LevelsClamped e) : LevelsClamped (fireTimer e handle inp) := by
  unfold fireTimer
  cases hf : e.timers.find? (fun t => t.handle = handle) with
  | none => simpa using h
  | some t => exact generateReading_clamped e t.householdId inp h

theorem step_clamped (e : Engine) (op : Op) (h : LevelsClamped e) :
    LevelsClamped (step e op) := by
  cases op with
  | start householdId callback inp => exact startSimulation_clamped e householdId callback inp h
  | stop householdId => exact stopSimulation_clamped e householdId h
  | stopAll => exact foldl_stop_clamped _ e h
  | tick householdId inp => exact generateReading_clamped e householdId inp h
  | fire handle inp => exact fireTimer_clamped e handle inp h
  | setLevel householdId level => exact setBatteryLevel_clamped e householdId level h
  | powerCut householdId => exact simulatePowerCut_clamped e householdId h

theorem run_clamped (ops : List Op) (e : Engine) (h : LevelsClamped e) :
    LevelsClamped (run e ops) := by
  induction ops generalizing e with
  | nil => simpa [run] using h
  | cons op rest ih => exact ih _ (step_clamped e op h)

/-! ## Evaluation helpers -/

theorem virtualHour_of_nonneg (t : ℤ) (ht : 0 ≤ t) : virtualHour t = t / 60000 % 24 := by
  have hx : (0 : ℚ) ≤ (t : ℚ) / (60 * 1000) / 24 := by positivity
  have h1 : ⌊(t : ℚ) / (60 * 1000) / 24⌋ = t / 1440000 := by
    have h := Rat.floor_intCast_div_natCast t 1440000
    have e : (t : ℚ) / (60 * 1000) / 24 = (t : ℚ) / ((1440000 : ℕ) : ℚ) := by
      push_cast
      ring
    rw [e, h]
    norm_num
  have h2 : ⌊(t : ℚ) / (60 * 1000)⌋ = t / 60000 := by
    have h := Rat.floor_intCast_div_natCast t 60000
    have e : (t : ℚ) / (60 * 1000) = (t : ℚ) / ((60000 : ℕ) : ℚ) := by
      push_cast
      ring
    rw [e, h]
    norm_num
  unfold virtualHour mathFloor jsRem truncQ
  rw [if_pos hx, h1]
  have h3 : (24 : ℚ) * ((t / 1440000 : ℤ) : ℚ) = ((24 * (t / 1440000) : ℤ) : ℚ) := by
    push_cast
    ring
  rw [h3, Int.floor_sub_int, h2]
  omega

theorem mathRound_intCast (n : ℤ) : mathRound (n : ℚ) = n := by
  unfold mathRound
  rw [Int.floor_eq_iff]
  constructor
  · linarith
  · linarith

theorem virtualHour_noon : virtualHour 725000 = 12 := by
  rw [virtualHour_of_nonneg _ (by norm_num)]
  norm_num

theorem virtualHour_dawn : virtualHour 360000 = 6 := by
  rw [virtualHour_of_nonneg _ (by norm_num)]
  norm_num

theorem generateReading_of_get (e : Engine) (householdId : ℕ) (state : SensorState)
    (inp : TickInput) (h : mapGet e.sensorStates householdId = some state) :
    generateReading e householdId inp =
      ({ e with sensorStates := mapSet e.sensorStates householdId (tickBody state inp).1 },
        some (tickBody state inp).2) := by
  simp [generateReading, h]

theorem generateReading_of_absent (e : Engine) (householdId : ℕ) (inp : TickInput)
    (h : mapGet e.sensorStates householdId = none) :
    generateReading e householdId inp = (e, none) := by
  simp [generateReading, h]

theorem mathRound_eq (x : ℚ) (n : ℤ) (h : x = (n : ℚ)) : mathRound x = n := by
  rw [h]
  exact mathRound_intCast n

theorem noonTick_reading_solar (state : SensorState) : (tickBody state noonTick).2.solarGeneration = 5 := by
  have h : solarGenerationAt 12 0.5 = 5 := by
    norm_num [solarGenerationAt, isDaytime, mathMax, mathAbs]
  simp only [tickBody, noonTick, virtualHour_noon, h]
  rw [mathRound_eq _ 500 (by norm_num)]
  norm_num

theorem noonTick_reading_load (state : SensorState) : (tickBody state noonTick).2.powerConsumption = 1.05 := by
  simp only [tickBody, noonTick, powerConsumptionAt]
  rw [mathRound_eq _ 105 (by norm_num)]
  norm_num

theorem clamp_eq_max_min (x : ℚ) : mathMax 0 (mathMin 100 x) = clamp x 0 100 := by
  unfold clamp mathMax mathMin
  by_cases h1 : x < 0
  · rw [if_pos h1, min_eq_right (by linarith), max_eq_left (le_of_lt h1)]
  · rw [if_neg h1]
    by_cases h2 : (100 : ℚ) < x
    · rw [if_pos h2, min_eq_left (le_of_lt h2), max_eq_right (by norm_num)]
    · rw [if_neg h2, min_eq_right (not_lt.mp h2), max_eq_right (not_lt.mp h1)]

/-! ## Claims -/

/-- With finite override levels, every stored device state of every engine state reached from
the empty engine has its battery level between 0 and 100. -/
theorem clamp_invariant (ops : List Op) :
    ∀ p ∈ (run Engine.empty ops).sensorStates,
      0 ≤ p.2.batteryLevel ∧ p.2.batteryLevel ≤ 100 :=
  run_clamped ops Engine.empty (by intro p hp; simp [Engine.empty] at hp)

/-- C2, at the failing input: starting household 1 twice from the empty engine leaves both
intervals live, the first still bound to the first sink, while the registry only remembers
the second handle. -/
theorem start_twice_keeps_old_timer (i j : StartInput) :
    (run Engine.empty [Op.start 1 7 i, Op.start 1 8 j]).timers =
        [{ handle := 1, householdId := 1, callback := 7 },
         { handle := 2, householdId := 1, callback := 8 }] ∧
      (run Engine.empty [Op.start 1 7 i, Op.start 1 8 j]).simulations = [(1, 2)] := by
  simp [run, step, startSimulation, intervalBody, deliver, generateReading, mapSet, mapGet,
    Engine.empty]

/-- C3, at the failing input: household 1 is started with a consumption of 0.3 A and then
power-cut, which stores a solar generation of 0 and a consumption of 0.03 A; yet the next
reading, at virtual hour 12, reports a solar generation of 5 A and a consumption of 1.05 A,
because the tick recomputes both from the clock and fresh draws. -/
theorem powerCut_ignored_by_next_reading :
    ∃ st r, mapGet (run Engine.empty [Op.start 1 7 noonStart, Op.powerCut 1]).sensorStates 1
        = some st ∧
      st.solarGeneration = 0 ∧ st.powerConsumption = 0.03 ∧
      (generateReading (run Engine.empty [Op.start 1 7 noonStart, Op.powerCut 1]) 1
        noonTick).2 = some r ∧
      r.solarGeneration = 5 ∧ r.powerConsumption = 1.05 := by
  have key : ∃ st : SensorState, st.solarGeneration = 0 ∧ st.powerConsumption = 0.03 ∧
      (run Engine.empty [Op.start 1 7 noonStart, Op.powerCut 1]).sensorStates = [(1, st)] := by
    refine ⟨{ (tickBody (initialState noonStart) noonStart.first).1 with
              solarGeneration := 0
              powerConsumption :=
                (tickBody (initialState noonStart) noonStart.first).1.powerConsumption * 0.1 },
      rfl, ?_, ?_⟩
    · norm_num [tickBody, powerConsumptionAt, noonStart]
    · simp [run, step, startSimulation_states, simulatePowerCut, mapSet, mapGet, Engine.empty]
  obtain ⟨st, h0, h1, hs⟩ := key
  have hg : mapGet (run Engine.empty [Op.start 1 7 noonStart, Op.powerCut 1]).sensorStates 1 =
      some st := by
    rw [hs]
    simp [mapGet]
  refine ⟨st, (tickBody st noonTick).2, hg, h0, h1, ?_, noonTick_reading_solar _, noonTick_reading_load _⟩
  rw [generateReading_of_get _ _ _ _ hg]

/-- C4, at the failing input: after household 1 is started twice, `stopAllSimulations` empties
both maps but the first interval stays live, and when it fires next it calls sink 7 (with
`null`). -/
theorem stopAll_leaves_leaked_timer (i j : StartInput) (k : TickInput) :
    (run Engine.empty [Op.start 1 7 i, Op.start 1 8 j, Op.stopAll]).timers =
        [{ handle := 1, householdId := 1, callback := 7 }] ∧
      (run Engine.empty [Op.start 1 7 i, Op.start 1 8 j, Op.stopAll]).simulations = [] ∧
      (run Engine.empty [Op.start 1 7 i, Op.start 1 8 j, Op.stopAll]).sensorStates = [] ∧
      (run Engine.empty [Op.start 1 7 i, Op.start 1 8 j, Op.stopAll, Op.fire 1 k]).delivered =
        (run Engine.empty [Op.start 1 7 i, Op.start 1 8 j, Op.stopAll]).delivered ++
          [(7, none)] := by
  simp [run, step, startSimulation, stopAllSimulations, stopSimulation, clearInterval,
    fireTimer, intervalBody, deliver, generateReading, mapSet, mapGet, mapDelete, mapKeys,
    Engine.empty]

/-- C5, at the failing input: after household 1 is started twice and stopped, its state is gone
while the first interval is live; the interval's closure then leaves the engine as it is but
calls sink 7 with `null`. -/
theorem tick_after_stop_calls_sink_with_null (i j : StartInput) (k : TickInput) :
    mapGet (run Engine.empty [Op.start 1 7 i, Op.start 1 8 j, Op.stop 1]).sensorStates 1
        = none ∧
      intervalBody (run Engine.empty [Op.start 1 7 i, Op.start 1 8 j, Op.stop 1]) 1 7 k =
        deliver (run Engine.empty [Op.start 1 7 i, Op.start 1 8 j, Op.stop 1]) 7 none ∧
      (run Engine.empty [Op.start 1 7 i, Op.start 1 8 j, Op.stop 1, Op.fire 1 k]).delivered =
        (run Engine.empty [Op.start 1 7 i, Op.start 1 8 j, Op.stop 1]).delivered ++
          [(7, none)] := by
  simp [run, step, startSimulation, stopSimulation, clearInterval,
    fireTimer, intervalBody, deliver, generateReading, mapSet, mapGet, mapDelete,
    Engine.empty]

/-- C6, at the failing input: at virtual hour 6 with a solar noise draw of 0, the tick stores a
solar generation of -0.25 A and reports -0.25 A in the reading, whatever the state was. -/
theorem solar_negative_at_dawn (state : SensorState) :
    virtualHour dawnTick.now = 6 ∧ dawnTick.solarNoise = 0 ∧
      (tickBody state dawnTick).1.solarGeneration = -0.25 ∧
      (tickBody state dawnTick).2.solarGeneration = -0.25 := by
  have h : solarGenerationAt 6 0 = -0.25 := by
    norm_num [solarGenerationAt, isDaytime, mathMax, mathAbs]
  refine ⟨virtualHour_dawn, rfl, ?_, ?_⟩
  · simp only [tickBody, dawnTick, virtualHour_dawn, h]
  · simp only [tickBody, dawnTick, virtualHour_dawn, h]
    rw [mathRound_eq _ (-25) (by norm_num)]
    norm_num

/-- C7. For a running device with stored level `b` and last update time `t0`, a tick at clock
time `t1` stores the level `clamp(b + ((s - c) * ((t1 - t0)/1000) / 3600) / 100 * 100, 0, 100)`
and the current `s - c`, where `s` and `c` are the solar generation and the consumption that
this tick computes and stores. -/
theorem charge_integration (e : Engine) (householdId : ℕ) (state : SensorState)
    (inp : TickInput) (h : mapGet e.sensorStates householdId = some state) :
    ∃ st : SensorState,
      mapGet (generateReading e householdId inp).1.sensorStates householdId = some st ∧
      st.solarGeneration = solarGenerationAt (virtualHour inp.now) inp.solarNoise ∧
      st.powerConsumption = powerConsumptionAt inp.loadDraw ∧
      st.batteryLevel =
        clamp (state.batteryLevel +
          ((st.solarGeneration - st.powerConsumption) *
            (((inp.now - state.lastUpdate : ℤ) : ℚ) / 1000) / 3600) / 100 * 100) 0 100 ∧
      st.current = st.solarGeneration - st.powerConsumption := by
  refine ⟨(tickBody state inp).1, ?_, rfl, rfl, ?_, rfl⟩
  · rw [generateReading_of_get e householdId state inp h]
    exact mapGet_mapSet_self _ _ _
  · simp only [tickBody, deltaCharge]
    exact clamp_eq_max_min _

/-- C7, instance: the first tick after household 1 has been started. -/
theorem charge_integration_witness :
    ∃ st : SensorState,
      mapGet (generateReading (run Engine.empty [Op.start 1 7 noonStart]) 1
        noonTick).1.sensorStates 1 = some st ∧
      st.solarGeneration = solarGenerationAt (virtualHour noonTick.now) noonTick.solarNoise ∧
      st.powerConsumption = powerConsumptionAt noonTick.loadDraw ∧
      st.batteryLevel =
        clamp ((tickBody (initialState noonStart) noonStart.first).1.batteryLevel +
          ((st.solarGeneration - st.powerConsumption) *
            (((noonTick.now - (tickBody (initialState noonStart) noonStart.first).1.lastUpdate
              : ℤ) : ℚ) / 1000) / 3600) / 100 * 100) 0 100 ∧
      st.current = st.solarGeneration - st.powerConsumption :=
  charge_integration (run Engine.empty [Op.start 1 7 noonStart]) 1
    (tickBody (initialState noonStart) noonStart.first).1 noonTick
    (by simp [run, step, startSimulation_states, mapSet, mapGet, Engine.empty])

/-- C8. `calculateVoltage` follows the four band formulas of the table, and the voltage that a
tick stores, and reports to two decimals, is `calculateVoltage` of the level that this same tick
has just stored. -/
theorem voltage_curve (level : ℚ) (e : Engine) (householdId : ℕ) (state : SensorState)
    (inp : TickInput) (h : mapGet e.sensorStates householdId = some state) :
    (level ≥ 90 → calculateVoltage level = 12.6 + (level - 90) * 0.02) ∧
    (50 ≤ level → level < 90 → calculateVoltage level = 12.2 + (level - 50) * 0.01) ∧
    (20 ≤ level → level < 50 → calculateVoltage level = 11.8 + (level - 20) * 0.013) ∧
    (level < 20 → calculateVoltage level = 11.0 + level * 0.04) ∧
    ∃ (st : SensorState) (r : Reading),
      mapGet (generateReading e householdId inp).1.sensorStates householdId = some st ∧
      (generateReading e householdId inp).2 = some r ∧
      st.voltage = calculateVoltage st.batteryLevel ∧
      r.voltage = (mathRound (calculateVoltage st.batteryLevel * 100) : ℚ) / 100 := by
  refine ⟨?_, ?_, ?_, ?_, (tickBody state inp).1, (tickBody state inp).2, ?_, ?_, rfl, rfl⟩
  · intro h90
    unfold calculateVoltage
    rw [if_pos h90]
  · intro h50 h90
    unfold calculateVoltage
    rw [if_neg (not_le.mpr h90), if_pos h50]
  · intro h20 h50
    unfold calculateVoltage
    rw [if_neg (not_le.mpr (by linarith)), if_neg (not_le.mpr h50), if_pos h20]
  · intro h20
    unfold calculateVoltage
    rw [if_neg (not_le.mpr (by linarith)), if_neg (not_le.mpr (by linarith)),
      if_neg (not_le.mpr h20)]
  · rw [generateReading_of_get e householdId state inp h]
    exact mapGet_mapSet_self _ _ _
  · rw [generateReading_of_get e householdId state inp h]

/-- C8, instance: one level in each band (95, 60, 30, 10), and the first tick after household 1
has been started. -/
theorem voltage_curve_witness :
    calculateVoltage 95 = 12.6 + (95 - 90) * 0.02 ∧
    calculateVoltage 60 = 12.2 + (60 - 50) * 0.01 ∧
    calculateVoltage 30 = 11.8 + (30 - 20) * 0.013 ∧
    calculateVoltage 10 = 11.0 + 10 * 0.04 ∧
    ∃ (st : SensorState) (r : Reading),
      mapGet (generateReading (run Engine.empty [Op.start 1 7 noonStart]) 1
        noonTick).1.sensorStates 1 = some st ∧
      (generateReading (run Engine.empty [Op.start 1 7 noonStart]) 1 noonTick).2 = some r ∧
      st.voltage = calculateVoltage st.batteryLevel ∧
      r.voltage = (mathRound (calculateVoltage st.batteryLevel * 100) : ℚ) / 100 :=
  have hget : mapGet (run Engine.empty [Op.start 1 7 noonStart]).sensorStates 1 =
      some (tickBody (initialState noonStart) noonStart.first).1 := by
    simp [run, step, startSimulation_states, mapSet, mapGet, Engine.empty]
  ⟨(voltage_curve 95 _ 1 _ noonTick hget).1 (by norm_num),
   (voltage_curve 60 _ 1 _ noonTick hget).2.1 (by norm_num) (by norm_num),
   (voltage_curve 30 _ 1 _ noonTick hget).2.2.1 (by norm_num) (by norm_num),
   (voltage_curve 10 _ 1 _ noonTick hget).2.2.2.1 (by norm_num),
   (voltage_curve 95 _ 1 _ noonTick hget).2.2.2.2⟩

/-- C9, refuted as stated: the three boundary equalities do not all hold, because at level 50
the formula of the band below gives 12.19 while `calculateVoltage 50` is 12.2. -/
theorem voltage_not_continuous_at_50 :
    ¬ (12.2 + ((90 : ℚ) - 50) * 0.01 = calculateVoltage 90 ∧
       11.8 + ((50 : ℚ) - 20) * 0.013 = calculateVoltage 50 ∧
       11.0 + (20 : ℚ) * 0.04 = calculateVoltage 20) := by
  rintro ⟨-, h, -⟩
  norm_num [calculateVoltage] at h

/-- C9, amended: at levels 90 and 20 the formula of the band below the boundary, evaluated at
the boundary, equals `calculateVoltage` there; at level 50 the formula of the band below gives
12.19 and `calculateVoltage 50` is 12.2, an upward step of 0.01 V. -/
theorem voltage_boundary_values :
    12.2 + ((90 : ℚ) - 50) * 0.01 = calculateVoltage 90 ∧
    11.0 + (20 : ℚ) * 0.04 = calculateVoltage 20 ∧
    11.8 + ((50 : ℚ) - 20) * 0.013 = 12.19 ∧
    calculateVoltage 50 = 12.2 ∧
    calculateVoltage 50 - (11.8 + ((50 : ℚ) - 20) * 0.013) = 0.01 := by
  refine ⟨?_, ?_, ?_, ?_, ?_⟩ <;> norm_num [calculateVoltage]

/-- C10. For battery levels `a ≤ b`, `calculateVoltage a ≤ calculateVoltage b`; this holds for
all levels, in particular for those in `[0, 100]` and for pairs on either side of 20, 50, 90. -/
theorem voltage_monotone (a b : ℚ) (hab : a ≤ b) :
    calculateVoltage a ≤ calculateVoltage b := by
  unfold calculateVoltage
  split_ifs <;> norm_num at * <;> linarith

/-- C10, instance: pairs that straddle the boundaries 20, 50 and 90, and the full range. -/
theorem voltage_monotone_witness :
    calculateVoltage 19.5 ≤ calculateVoltage 20 ∧
    calculateVoltage 49.5 ≤ calculateVoltage 50 ∧
    calculateVoltage 89.5 ≤ calculateVoltage 90.5 ∧
    calculateVoltage 0 ≤ calculateVoltage 100 :=
  ⟨voltage_monotone 19.5 20 (by norm_num), voltage_monotone 49.5 50 (by norm_num),
   voltage_monotone 89.5 90.5 (by norm_num), voltage_monotone 0 100 (by norm_num)⟩

/-! ## Bounds on the quantities of a tick -/

theorem solarGenerationAt_bounds (hour : ℤ) (r : ℚ) (r0 : 0 ≤ r) (r1 : r < 1) :
    -0.25 ≤ solarGenerationAt hour r ∧ solarGenerationAt hour r < 5.25 := by
  unfold solarGenerationAt
  split_ifs with hd
  · have habs : (0 : ℚ) ≤ ((mathAbs (hour - 12) : ℤ) : ℚ) := by
      unfold mathAbs
      exact_mod_cast abs_nonneg (hour - 12)
    have h1 : (0 : ℚ) ≤ mathMax 0 (5.0 * (1 - ((mathAbs (hour - 12) : ℤ) : ℚ) / 6)) :=
      le_max_left _ _
    have h2 : mathMax 0 (5.0 * (1 - ((mathAbs (hour - 12) : ℤ) : ℚ) / 6)) ≤ 5 := by
      apply max_le
      · norm_num
      · norm_num
        linarith
    constructor
    · norm_num at *
      linarith
    · norm_num at *
      linarith
  · norm_num

theorem powerConsumptionAt_bounds (d : ℚ) (d0 : 0 ≤ d) (d1 : d < 1) :
    0.3 ≤ powerConsumptionAt d ∧ powerConsumptionAt d < 1.8 := by
  unfold powerConsumptionAt
  constructor
  · norm_num
    linarith
  · norm_num
    linarith

/-- C11. At each band boundary 90, 50 and 20, `calculateVoltage` at the boundary differs from
the value that the formula of the band below takes there by at most 0.1 V. -/
theorem voltage_jump_bound :
    |calculateVoltage 90 - (12.2 + ((90 : ℚ) - 50) * 0.01)| ≤ 0.1 ∧
    |calculateVoltage 50 - (11.8 + ((50 : ℚ) - 20) * 0.013)| ≤ 0.1 ∧
    |calculateVoltage 20 - (11.0 + (20 : ℚ) * 0.04)| ≤ 0.1 := by
  refine ⟨?_, ?_, ?_⟩ <;> norm_num [calculateVoltage, abs_le]

/-- C12. For a clock reading `t ≥ 0` the virtual hour of `generateReading` equals
`floor(t / 60000) mod 24`, lies in `0..23`, and is the `timeOfDay` of the reading. -/
theorem virtual_hour_range (t : ℤ) (ht : 0 ≤ t) (state : SensorState) (inp : TickInput)
    (hnow : inp.now = t) :
    virtualHour t = ⌊(t : ℚ) / 60000⌋ % 24 ∧ 0 ≤ virtualHour t ∧ virtualHour t ≤ 23 ∧
      (tickBody state inp).2.timeOfDay = ⌊(t : ℚ) / 60000⌋ % 24 := by
  have hf : ⌊(t : ℚ) / 60000⌋ = t / 60000 := by
    have h := Rat.floor_intCast_div_natCast t 60000
    have e : (t : ℚ) / 60000 = (t : ℚ) / ((60000 : ℕ) : ℚ) := by norm_num
    rw [e, h]
    norm_num
  have hv := virtualHour_of_nonneg t ht
  refine ⟨?_, ?_, ?_, ?_⟩
  · rw [hv, hf]
  · rw [hv]
    omega
  · rw [hv]
    omega
  · simp only [tickBody, hnow]
    rw [hv, hf]

/-- C12, instance: the clock reading 725000 ms. -/
theorem virtual_hour_range_witness :
    virtualHour 725000 = ⌊((725000 : ℤ) : ℚ) / 60000⌋ % 24 ∧ 0 ≤ virtualHour 725000 ∧
      virtualHour 725000 ≤ 23 ∧
      (tickBody (initialState noonStart) noonTick).2.timeOfDay =
        ⌊((725000 : ℤ) : ℚ) / 60000⌋ % 24 :=
  virtual_hour_range 725000 (by norm_num) (initialState noonStart) noonTick rfl

/-- C13. `isDaytime` holds exactly for hours 6 to 18; outside daytime the solar generation is
exactly 0; in daytime it is `max(0, 5.0 * (1 - |h - 12| / 6)) + (r - 0.5) * 0.5`, and for a
draw `r` in `[0, 1)` the noise term lies in `[-0.25, 0.25)`.  This holds for every integer
hour, in particular for those in `0..23`. -/
theorem solar_profile (h : ℤ) (r : ℚ) (r0 : 0 ≤ r) (r1 : r < 1) :
    (isDaytime h = true ↔ 6 ≤ h ∧ h ≤ 18) ∧
    (isDaytime h = false → solarGenerationAt h r = 0) ∧
    (isDaytime h = true →
      solarGenerationAt h r = max 0 (5.0 * (1 - |(h : ℚ) - 12| / 6)) + (r - 0.5) * 0.5) ∧
    -0.25 ≤ (r - 0.5) * 0.5 ∧ (r - 0.5) * 0.5 < 0.25 := by
  refine ⟨?_, ?_, ?_, ?_, ?_⟩
  · simp [isDaytime]
  · intro hd
    simp [solarGenerationAt, hd]
  · intro hd
    have habs : ((mathAbs (h - 12) : ℤ) : ℚ) = |(h : ℚ) - 12| := by
      unfold mathAbs
      push_cast
      rfl
    simp only [solarGenerationAt, hd, if_true, mathMax, habs]
  · norm_num
    linarith
  · norm_num
    linarith

/-- C13, instance: hour 9 (daytime) and hour 3 (night) with a noise draw of 0.5. -/
theorem solar_profile_witness :
    (isDaytime 9 = true ↔ (6 : ℤ) ≤ 9 ∧ (9 : ℤ) ≤ 18) ∧
    solarGenerationAt 3 0.5 = 0 ∧
    solarGenerationAt 9 0.5 =
      max 0 (5.0 * (1 - |((9 : ℤ) : ℚ) - 12| / 6)) + (0.5 - 0.5) * 0.5 ∧
    -0.25 ≤ ((0.5 : ℚ) - 0.5) * 0.5 ∧ ((0.5 : ℚ) - 0.5) * 0.5 < 0.25 :=
  ⟨(solar_profile 9 0.5 (by norm_num) (by norm_num)).1,
   (solar_profile 3 0.5 (by norm_num) (by norm_num)).2.1 (by decide),
   (solar_profile 9 0.5 (by norm_num) (by norm_num)).2.2.1 (by decide),
   (solar_profile 9 0.5 (by norm_num) (by norm_num)).2.2.2⟩

theorem tickBody_level_eq (state : SensorState) (inp : TickInput) :
    (tickBody state inp).1.batteryLevel =
      max 0 (min 100 (state.batteryLevel +
        ((tickBody state inp).1.solarGeneration - (tickBody state inp).1.powerConsumption) *
          (((inp.now - state.lastUpdate : ℤ) : ℚ) / 1000) / 3600)) := by
  simp only [tickBody, deltaCharge, mathMax, mathMin]
  congr 3
  ring

/-- C14. On a tick with elapsed time `≥ 0` from a stored level `b` in `[0, 100]`, the new
stored level is `≥ b` when the tick's solar generation is `≥` its consumption and `≤ b` when
it is `≤`; at a night hour (0..5 or 19..23, load draw `≥ 0`) the level does not rise; and from
`b = 50` with 5 s elapsed the level strictly rises when solar exceeds consumption and strictly
falls when consumption exceeds solar. -/
theorem charge_direction (state : SensorState) (inp : TickInput)
    (hb0 : 0 ≤ state.batteryLevel) (hb1 : state.batteryLevel ≤ 100)
    (hdt : state.lastUpdate ≤ inp.now) :
    ((tickBody state inp).1.powerConsumption ≤ (tickBody state inp).1.solarGeneration →
      state.batteryLevel ≤ (tickBody state inp).1.batteryLevel) ∧
    ((tickBody state inp).1.solarGeneration ≤ (tickBody state inp).1.powerConsumption →
      (tickBody state inp).1.batteryLevel ≤ state.batteryLevel) ∧
    ((0 ≤ virtualHour inp.now ∧ virtualHour inp.now ≤ 5 ∨
        19 ≤ virtualHour inp.now ∧ virtualHour inp.now ≤ 23) → 0 ≤ inp.loadDraw →
      (tickBody state inp).1.batteryLevel ≤ state.batteryLevel) ∧
    (state.batteryLevel = 50 → inp.now - state.lastUpdate = 5000 →
      ((tickBody state inp).1.powerConsumption < (tickBody state inp).1.solarGeneration →
        50 < (tickBody state inp).1.batteryLevel) ∧
      ((tickBody state inp).1.solarGeneration < (tickBody state inp).1.powerConsumption →
        (tickBody state inp).1.batteryLevel < 50)) := by
  have hlev := tickBody_level_eq state inp
  have hdt' : (0 : ℚ) ≤ ((inp.now - state.lastUpdate : ℤ) : ℚ) / 1000 := by
    have : (0 : ℚ) ≤ ((inp.now - state.lastUpdate : ℤ) : ℚ) := by
      exact_mod_cast sub_nonneg.mpr hdt
    positivity
  have hdown : (tickBody state inp).1.solarGeneration ≤ (tickBody state inp).1.powerConsumption →
      (tickBody state inp).1.batteryLevel ≤ state.batteryLevel := by
    intro hle
    rw [hlev]
    have hd : ((tickBody state inp).1.solarGeneration - (tickBody state inp).1.powerConsumption) *
        (((inp.now - state.lastUpdate : ℤ) : ℚ) / 1000) / 3600 ≤ 0 := by
      apply div_nonpos_of_nonpos_of_nonneg _ (by norm_num)
      exact mul_nonpos_of_nonpos_of_nonneg (by linarith) hdt'
    apply max_le hb0
    exact le_trans (min_le_right _ _) (by linarith)
  refine ⟨?_, hdown, ?_, ?_⟩
  · intro hge
    rw [hlev]
    have hd : 0 ≤ ((tickBody state inp).1.solarGeneration -
        (tickBody state inp).1.powerConsumption) *
        (((inp.now - state.lastUpdate : ℤ) : ℚ) / 1000) / 3600 := by
      apply div_nonneg _ (by norm_num)
      exact mul_nonneg (by linarith) hdt'
    apply le_trans _ (le_max_right _ _)
    exact le_min hb1 (by linarith)
  · intro hnight hload
    apply hdown
    have hd : isDaytime (virtualHour inp.now) = false := by
      simp only [isDaytime, decide_eq_false_iff_not]
      omega
    simp only [tickBody, solarGenerationAt, hd, powerConsumptionAt]
    norm_num
    linarith
  · intro h50 h5
    have e5 : ((inp.now - state.lastUpdate : ℤ) : ℚ) / 1000 = 5 := by
      rw [h5]
      norm_num
    rw [hlev, e5, h50]
    constructor
    · intro hgt
      apply lt_of_lt_of_le _ (le_max_right _ _)
      apply lt_min (by norm_num)
      have : 0 < ((tickBody state inp).1.solarGeneration -
          (tickBody state inp).1.powerConsumption) * 5 / 3600 := by
        apply div_pos _ (by norm_num)
        exact mul_pos (by linarith) (by norm_num)
      linarith
    · intro hlt
      apply max_lt (by norm_num)
      apply lt_of_le_of_lt (min_le_right _ _)
      have : ((tickBody state inp).1.solarGeneration -
          (tickBody state inp).1.powerConsumption) * 5 / 3600 < 0 := by
        apply div_neg_of_neg_of_pos _ (by norm_num)
        exact mul_neg_of_neg_of_pos (by linarith) (by norm_num)
      linarith

theorem virtualHour_midnight : virtualHour 1440000 = 0 := by
  rw [virtualHour_of_nonneg _ (by norm_num)]
  norm_num

theorem noonTick_stored_values (state : SensorState) :
    (tickBody state noonTick).1.solarGeneration = 5 ∧
      (tickBody state noonTick).1.powerConsumption = 1.05 := by
  constructor
  · simp only [tickBody, noonTick, virtualHour_noon]
    norm_num [solarGenerationAt, isDaytime, mathMax, mathAbs]
  · simp only [tickBody, noonTick, powerConsumptionAt]
    norm_num

/-- C14, instance: from level 50, a noon tick 5 s later (solar 5 A, load 1.05 A) raises the
level, and a tick at virtual hour 0 does not raise it. -/
theorem charge_direction_witness :
    levelFifty.batteryLevel ≤ (tickBody levelFifty noonTick).1.batteryLevel ∧
    50 < (tickBody levelFifty noonTick).1.batteryLevel ∧
    (tickBody levelFifty midnightTick).1.batteryLevel ≤ levelFifty.batteryLevel :=
  have hlt : (tickBody levelFifty noonTick).1.powerConsumption <
      (tickBody levelFifty noonTick).1.solarGeneration := by
    rw [(noonTick_stored_values levelFifty).1, (noonTick_stored_values levelFifty).2]
    norm_num
  have h0 : (0 : ℚ) ≤ levelFifty.batteryLevel := by norm_num [levelFifty]
  have h1 : levelFifty.batteryLevel ≤ 100 := by norm_num [levelFifty]
  ⟨(charge_direction levelFifty noonTick h0 h1 (by decide)).1 (le_of_lt hlt),
   ((charge_direction levelFifty noonTick h0 h1 (by decide)).2.2.2 rfl (by decide)).1 hlt,
   (charge_direction levelFifty midnightTick h0 h1 (by decide)).2.2.1
     (Or.inl (by rw [show midnightTick.now = 1440000 from rfl, virtualHour_midnight]; decide))
     (by norm_num [midnightTick])⟩

theorem mathRound_bounds (y : ℚ) (lo hi : ℤ) (h1 : (lo : ℚ) ≤ y) (h2 : y ≤ (hi : ℚ)) :
    lo ≤ mathRound y ∧ mathRound y ≤ hi := by
  unfold mathRound
  constructor
  · rw [Int.le_floor]
    linarith
  · have : ⌊y + 1 / 2⌋ < hi + 1 := by
      rw [Int.floor_lt]
      push_cast
      linarith
    omega

theorem round2_bounds (y : ℚ) (lo hi : ℤ) (h1 : (lo : ℚ) / 100 ≤ y) (h2 : y ≤ (hi : ℚ) / 100) :
    (lo : ℚ) / 100 ≤ (mathRound (y * 100) : ℚ) / 100 ∧
      (mathRound (y * 100) : ℚ) / 100 ≤ (hi : ℚ) / 100 := by
  have h := mathRound_bounds (y * 100) lo hi (by linarith) (by linarith)
  have ha : (lo : ℚ) ≤ (mathRound (y * 100) : ℚ) := by exact_mod_cast h.1
  have hb : (mathRound (y * 100) : ℚ) ≤ (hi : ℚ) := by exact_mod_cast h.2
  constructor
  · linarith
  · linarith

/-- C15. For a tick at virtual hour 12 with noise draws in `[0, 1)`, the solar generation lies
in `[4.75, 5.25]`; at every hour the consumption lies in `[0.3, 1.8]`, hence is non-negative.
Both hold for the stored values and for the two-decimal values of the reading. -/
theorem noon_ranges (state : SensorState) (inp : TickInput)
    (hn0 : 0 ≤ inp.solarNoise) (hn1 : inp.solarNoise < 1)
    (hl0 : 0 ≤ inp.loadDraw) (hl1 : inp.loadDraw < 1) :
    (virtualHour inp.now = 12 →
      4.75 ≤ (tickBody state inp).1.solarGeneration ∧
        (tickBody state inp).1.solarGeneration ≤ 5.25 ∧
      4.75 ≤ (tickBody state inp).2.solarGeneration ∧
        (tickBody state inp).2.solarGeneration ≤ 5.25) ∧
    0.3 ≤ (tickBody state inp).1.powerConsumption ∧
    (tickBody state inp).1.powerConsumption ≤ 1.8 ∧
    0 ≤ (tickBody state inp).1.powerConsumption ∧
    0.3 ≤ (tickBody state inp).2.powerConsumption ∧
    (tickBody state inp).2.powerConsumption ≤ 1.8 := by
  have hp := powerConsumptionAt_bounds inp.loadDraw hl0 hl1
  have hr := round2_bounds (powerConsumptionAt inp.loadDraw) 30 180
    (by norm_num; linarith [hp.1]) (by norm_num; linarith [hp.2])
  refine ⟨?_, hp.1, le_of_lt hp.2, le_trans (by norm_num) hp.1, ?_, ?_⟩
  · intro h12
    have hs : solarGenerationAt 12 inp.solarNoise = 5 + (inp.solarNoise - 0.5) * 0.5 := by
      norm_num [solarGenerationAt, isDaytime, mathMax, mathAbs]
    have hlo : (4.75 : ℚ) ≤ solarGenerationAt 12 inp.solarNoise := by
      rw [hs]
      norm_num
      linarith
    have hhi : solarGenerationAt 12 inp.solarNoise ≤ 5.25 := by
      rw [hs]
      norm_num
      linarith
    have hr2 := round2_bounds (solarGenerationAt 12 inp.solarNoise) 475 525
      (by norm_num; linarith) (by norm_num; linarith)
    simp only [tickBody, h12]
    refine ⟨hlo, hhi, ?_, ?_⟩
    · norm_num at hr2 ⊢
      exact hr2.1
    · norm_num at hr2 ⊢
      exact hr2.2
  · simp only [tickBody]
    norm_num at hr ⊢
    exact hr.1
  · simp only [tickBody]
    norm_num at hr ⊢
    exact hr.2

/-- C15, instance: the noon tick at clock reading 725000 ms with all draws at 0.5. -/
theorem noon_ranges_witness :
    (4.75 ≤ (tickBody levelFifty noonTick).1.solarGeneration ∧
        (tickBody levelFifty noonTick).1.solarGeneration ≤ 5.25 ∧
      4.75 ≤ (tickBody levelFifty noonTick).2.solarGeneration ∧
        (tickBody levelFifty noonTick).2.solarGeneration ≤ 5.25) ∧
    0.3 ≤ (tickBody levelFifty noonTick).1.powerConsumption ∧
    (tickBody levelFifty noonTick).1.powerConsumption ≤ 1.8 ∧
    0 ≤ (tickBody levelFifty noonTick).1.powerConsumption ∧
    0.3 ≤ (tickBody levelFifty noonTick).2.powerConsumption ∧
    (tickBody levelFifty noonTick).2.powerConsumption ≤ 1.8 :=
  have h := noon_ranges levelFifty noonTick (by norm_num [noonTick]) (by norm_num [noonTick])
    (by norm_num [noonTick]) (by norm_num [noonTick])
  ⟨h.1 virtualHour_noon, h.2⟩

theorem abs_clamp_sub_le (b d : ℚ) (hb0 : 0 ≤ b) (hb1 : b ≤ 100) :
    |max 0 (min 100 (b + d)) - b| ≤ |d| := by
  rw [abs_le]
  have hd1 : -|d| ≤ d := neg_abs_le d
  have hd2 : d ≤ |d| := le_abs_self d
  have hd0 : 0 ≤ |d| := abs_nonneg d
  constructor
  · have : b - |d| ≤ max 0 (min 100 (b + d)) := by
      apply le_trans _ (le_max_right _ _)
      apply le_min
      · linarith
      · linarith
    linarith
  · have : max 0 (min 100 (b + d)) ≤ b + |d| := by
      apply max_le
      · linarith
      · exact le_trans (min_le_right _ _) (by linarith)
    linarith

/-- C16. On a tick with exactly 5 s elapsed, noise draws in `[0, 1)` and a stored level in
`[0, 100]`, the stored level changes by strictly less than 0.01 percentage points, at every
virtual hour. -/
theorem step_bound (state : SensorState) (inp : TickInput)
    (hb0 : 0 ≤ state.batteryLevel) (hb1 : state.batteryLevel ≤ 100)
    (h5 : inp.now - state.lastUpdate = 5000)
    (hn0 : 0 ≤ inp.solarNoise) (hn1 : inp.solarNoise < 1)
    (hl0 : 0 ≤ inp.loadDraw) (hl1 : inp.loadDraw < 1) :
    |(tickBody state inp).1.batteryLevel - state.batteryLevel| < 0.01 := by
  have hs := solarGenerationAt_bounds (virtualHour inp.now) inp.solarNoise hn0 hn1
  have hp := powerConsumptionAt_bounds inp.loadDraw hl0 hl1
  have e5 : ((inp.now - state.lastUpdate : ℤ) : ℚ) / 1000 = 5 := by
    rw [h5]
    norm_num
  rw [tickBody_level_eq, e5]
  apply lt_of_le_of_lt (abs_clamp_sub_le _ _ hb0 hb1)
  have hs' : (tickBody state inp).1.solarGeneration =
      solarGenerationAt (virtualHour inp.now) inp.solarNoise := rfl
  have hp' : (tickBody state inp).1.powerConsumption = powerConsumptionAt inp.loadDraw := rfl
  rw [hs', hp', abs_lt]
  constructor
  · norm_num at *
    linarith
  · norm_num at *
    linarith

/-- C16, instance: the noon tick 5 s after the last update of a state at level 50. -/
theorem step_bound_witness :
    |(tickBody levelFifty noonTick).1.batteryLevel - levelFifty.batteryLevel| < 0.01 :=
  step_bound levelFifty noonTick (by norm_num [levelFifty]) (by norm_num [levelFifty])
    (by decide) (by norm_num [noonTick]) (by norm_num [noonTick]) (by norm_num [noonTick])
    (by norm_num [noonTick])

/-! ## More facts about maps -/

theorem mapGet_mapSet_ne {β : Type} (m : List (ℕ × β)) (key other : ℕ) (val : β)
    (hne : other ≠ key) : mapGet (mapSet m key val) other = mapGet m other := by
  induction m with
  | nil => simp [mapSet, mapGet, Ne.symm hne]
  | cons p rest ih =>
    obtain ⟨k, v⟩ := p
    by_cases hk : k = key
    · subst hk
      simp [mapSet, mapGet, Ne.symm hne]
    · by_cases hk' : k = other
      · subst hk'
        simp [mapSet, mapGet, hk]
      · simp [mapSet, mapGet, hk, hk', ih]

theorem mapGet_mapDelete_self {β : Type} (m : List (ℕ × β)) (key : ℕ) :
    mapGet (mapDelete m key) key = none := by
  induction m with
  | nil => simp [mapDelete, mapGet]
  | cons p rest ih =>
    obtain ⟨k, v⟩ := p
    by_cases hk : k = key
    · simp [mapDelete, hk, ih]
    · simp [mapDelete, mapGet, hk, ih]

theorem mapGet_mapDelete_ne {β : Type} (m : List (ℕ × β)) (key other : ℕ)
    (hne : other ≠ key) : mapGet (mapDelete m key) other = mapGet m other := by
  induction m with
  | nil => simp [mapDelete, mapGet]
  | cons p rest ih =>
    obtain ⟨k, v⟩ := p
    by_cases hk : k = key
    · subst hk
      simp [mapDelete, mapGet, Ne.symm hne, ih]
    · by_cases hk' : k = other
      · subst hk'
        simp [mapDelete, mapGet, hk]
      · simp [mapDelete, mapGet, hk, hk', ih]

theorem mapSet_none_iff {β : Type} (m : List (ℕ × β)) (key : ℕ) (old val : β)
    (hg : mapGet m key = some old) (other : ℕ) :
    mapGet (mapSet m key val) other = none ↔ mapGet m other = none := by
  by_cases hne : other = key
  · subst hne
    simp [mapGet_mapSet_self, hg]
  · rw [mapGet_mapSet_ne m key other val hne]

theorem eq_nil_of_mapGet_none {β : Type} (m : List (ℕ × β))
    (h : ∀ key : ℕ, mapGet m key = none) : m = [] := by
  cases m with
  | nil => rfl
  | cons p rest =>
    obtain ⟨k, v⟩ := p
    have := h k
    simp [mapGet] at this

theorem mapGet_none_of_not_mem_keys {β : Type} (m : List (ℕ × β)) (key : ℕ)
    (h : key ∉ mapKeys m) : mapGet m key = none := by
  induction m with
  | nil => simp [mapGet]
  | cons p rest ih =>
    obtain ⟨k, v⟩ := p
    simp only [mapKeys, List.map_cons, List.mem_cons, not_or] at h
    have hk : ¬ k = key := fun hk => h.1 hk.symm
    simp only [mapGet, hk, if_false]
    exact ih h.2

theorem mapKeys_mapSet_of_get {β : Type} (m : List (ℕ × β)) (key : ℕ) (old val : β)
    (hg : mapGet m key = some old) : mapKeys (mapSet m key val) = mapKeys m := by
  induction m with
  | nil => simp [mapGet] at hg
  | cons p rest ih =>
    obtain ⟨k, v⟩ := p
    by_cases hk : k = key
    · simp [mapSet, mapKeys, hk]
    · simp only [mapGet, hk, if_false] at hg
      have := ih hg
      simp only [mapKeys] at this
      simp [mapSet, mapKeys, hk, this]

/-! ## Overrides -/

/-- C17. On a device with stored state, `setBatteryLevel` returns `true`, stores
`max(0, min(100, level))` as the battery level (150 gives 100, -10 gives 0), and leaves the other
fields of that state, the states of all other devices, the registry, the live intervals, the
handle counter and the sink log as they were. -/
theorem setBatteryLevel_running (e : Engine) (householdId : ℕ) (state : SensorState)
    (level : ℚ) (h : mapGet e.sensorStates householdId = some state) :
    (setBatteryLevel e householdId level).2 = true ∧
    (∃ st : SensorState,
      mapGet (setBatteryLevel e householdId level).1.sensorStates householdId = some st ∧
      st.batteryLevel = max 0 (min 100 level) ∧
      st.voltage = state.voltage ∧ st.current = state.current ∧
      st.powerConsumption = state.powerConsumption ∧
      st.solarGeneration = state.solarGeneration ∧ st.temperature = state.temperature ∧
      st.lastUpdate = state.lastUpdate ∧ st.timeOfDay = state.timeOfDay) ∧
    (∃ st : SensorState,
      mapGet (setBatteryLevel e householdId 150).1.sensorStates householdId = some st ∧
      st.batteryLevel = 100) ∧
    (∃ st : SensorState,
      mapGet (setBatteryLevel e householdId (-10)).1.sensorStates householdId = some st ∧
      st.batteryLevel = 0) ∧
    (∀ other : ℕ, other ≠ householdId →
      mapGet (setBatteryLevel e householdId level).1.sensorStates other =
        mapGet e.sensorStates other) ∧
    mapKeys (setBatteryLevel e householdId level).1.sensorStates = mapKeys e.sensorStates ∧
    (setBatteryLevel e householdId level).1.simulations = e.simulations ∧
    (setBatteryLevel e householdId level).1.timers = e.timers ∧
    (setBatteryLevel e householdId level).1.nextHandle = e.nextHandle ∧
    (setBatteryLevel e householdId level).1.delivered = e.delivered := by
  have hset : ∀ l : ℚ, setBatteryLevel e householdId l =
      (⟨e.simulations,
        mapSet e.sensorStates householdId
          ⟨mathMax 0 (mathMin 100 l), state.voltage, state.current, state.powerConsumption,
            state.solarGeneration, state.temperature, state.lastUpdate, state.timeOfDay⟩,
        e.timers, e.nextHandle, e.delivered⟩, true) := by
    intro l
    simp [setBatteryLevel, h]
  refine ⟨?_, ?_, ?_, ?_, ?_, ?_, ?_, ?_, ?_, ?_⟩
  · rw [hset]
  · rw [hset]
    exact ⟨_, mapGet_mapSet_self _ _ _, rfl, rfl, rfl, rfl, rfl, rfl, rfl, rfl⟩
  · rw [hset]
    refine ⟨_, mapGet_mapSet_self _ _ _, ?_⟩
    norm_num [mathMax, mathMin]
  · rw [hset]
    refine ⟨_, mapGet_mapSet_self _ _ _, ?_⟩
    norm_num [mathMax, mathMin]
  · intro other hne
    rw [hset]
    exact mapGet_mapSet_ne _ _ _ _ hne
  · rw [hset]
    exact mapKeys_mapSet_of_get _ _ _ _ h
  · rw [hset]
  · rw [hset]
  · rw [hset]
  · rw [hset]

theorem twoHouseholds_get_one :
    mapGet twoHouseholds.sensorStates 1 =
      some (tickBody (initialState noonStart) noonStart.first).1 := by
  simp [twoHouseholds, run, step, startSimulation_states, mapSet, mapGet, Engine.empty]

/-- C17, instance: with households 1 and 2 running, forcing household 1 to level 150 returns
`true`, stores 100, and leaves household 2 and the live intervals as they were. -/
theorem setBatteryLevel_running_witness :
    (setBatteryLevel twoHouseholds 1 150).2 = true ∧
    (∃ st : SensorState,
      mapGet (setBatteryLevel twoHouseholds 1 150).1.sensorStates 1 = some st ∧
      st.batteryLevel = 100) ∧
    mapGet (setBatteryLevel twoHouseholds 1 150).1.sensorStates 2 =
      mapGet twoHouseholds.sensorStates 2 ∧
    (setBatteryLevel twoHouseholds 1 150).1.timers = twoHouseholds.timers :=
  ⟨(setBatteryLevel_running twoHouseholds 1 _ 150 twoHouseholds_get_one).1,
   (setBatteryLevel_running twoHouseholds 1 _ 150 twoHouseholds_get_one).2.2.1,
   (setBatteryLevel_running twoHouseholds 1 _ 150 twoHouseholds_get_one).2.2.2.2.1 2
     (by decide),
   (setBatteryLevel_running twoHouseholds 1 _ 150 twoHouseholds_get_one).2.2.2.2.2.2.2.1⟩

/-- C18. On a device id with no stored state, `setBatteryLevel` and `simulatePowerCut` return
`false` and give back the engine unchanged; each returns `true` exactly when the id has stored
state. -/
theorem overrides_on_unknown (e : Engine) (householdId : ℕ) (level : ℚ) :
    (mapGet e.sensorStates householdId = none →
      setBatteryLevel e householdId level = (e, false) ∧
      simulatePowerCut e householdId = (e, false)) ∧
    ((setBatteryLevel e householdId level).2 = true ↔
      ∃ state : SensorState, mapGet e.sensorStates householdId = some state) ∧
    ((simulatePowerCut e householdId).2 = true ↔
      ∃ state : SensorState, mapGet e.sensorStates householdId = some state) := by
  refine ⟨?_, ?_, ?_⟩
  · intro h
    simp [setBatteryLevel, simulatePowerCut, h]
  · unfold setBatteryLevel
    cases h : mapGet e.sensorStates householdId with
    | none => simp
    | some state => simp
  · unfold simulatePowerCut
    cases h : mapGet e.sensorStates householdId with
    | none => simp
    | some state => simp

/-- C18, instance: with households 1 and 2 running, both overrides fail on household 3 and
leave the engine as it was. -/
theorem overrides_on_unknown_witness :
    setBatteryLevel twoHouseholds 3 150 = (twoHouseholds, false) ∧
    simulatePowerCut twoHouseholds 3 = (twoHouseholds, false) :=
  (overrides_on_unknown twoHouseholds 3 150).1
    (by simp [twoHouseholds, run, step, startSimulation_states, mapSet, mapGet, Engine.empty])

/-! ## The structural invariant -/

theorem startSimulation_fields (e : Engine) (householdId callback : ℕ) (inp : StartInput) :
    (startSimulation e householdId callback inp).simulations =
        mapSet e.simulations householdId e.nextHandle ∧
      (startSimulation e householdId callback inp).timers =
        e.timers ++ [{ handle := e.nextHandle, householdId := householdId,
                       callback := callback }] ∧
      (startSimulation e householdId callback inp).nextHandle = e.nextHandle + 1 := by
  simp [startSimulation, intervalBody, deliver, generateReading, mapGet_mapSet_self]

theorem generateReading_sameShape (e : Engine) (householdId : ℕ) (inp : TickInput) :
    SameShape e (generateReading e householdId inp).1 := by
  unfold generateReading
  cases hg : mapGet e.sensorStates householdId with
  | none => exact ⟨rfl, rfl, rfl, fun _ => Iff.rfl⟩
  | some state => exact ⟨rfl, rfl, rfl, fun k => mapSet_none_iff _ _ state _ hg k⟩

theorem setBatteryLevel_sameShape (e : Engine) (householdId : ℕ) (level : ℚ) :
    SameShape e (setBatteryLevel e householdId level).1 := by
  unfold setBatteryLevel
  cases hg : mapGet e.sensorStates householdId with
  | none => exact ⟨rfl, rfl, rfl, fun _ => Iff.rfl⟩
  | some state => exact ⟨rfl, rfl, rfl, fun k => mapSet_none_iff _ _ state _ hg k⟩

theorem simulatePowerCut_sameShape (e : Engine) (householdId : ℕ) :
    SameShape e (simulatePowerCut e householdId).1 := by
  unfold simulatePowerCut
  cases hg : mapGet e.sensorStates householdId with
  | none => exact ⟨rfl, rfl, rfl, fun _ => Iff.rfl⟩
  | some state => exact ⟨rfl, rfl, rfl, fun k => mapSet_none_iff _ _ state _ hg k⟩

theorem fireTimer_sameShape (e : Engine) (handle : ℕ) (inp : TickInput) :
    SameShape e (fireTimer e handle inp) := by
  unfold fireTimer
  cases hf : e.timers.find? (fun t => t.handle = handle) with
  | none => exact ⟨rfl, rfl, rfl, fun _ => Iff.rfl⟩
  | some t => exact generateReading_sameShape e t.householdId inp

theorem wellFormed_of_sameShape (e e' : Engine) (hs : SameShape e e') (h : WellFormed e) :
    WellFormed e' := by
  obtain ⟨h1, h2, h3, h4⟩ := hs
  obtain ⟨hk, hf, ho⟩ := h
  refine ⟨?_, ?_, ?_⟩
  · intro id
    rw [h1, h4]
    exact hk id
  · unfold HandlesFresh
    rw [h1, h2, h3]
    exact hf
  · unfold HandlesOwned
    rw [h1, h2]
    exact ho

theorem startSimulation_wellFormed (e : Engine) (householdId callback : ℕ) (inp : StartInput)
    (h : WellFormed e) : WellFormed (startSimulation e householdId callback inp) := by
  obtain ⟨hk, hf, ho⟩ := h
  obtain ⟨f1, f2, f3⟩ := startSimulation_fields e householdId callback inp
  refine ⟨?_, ?_, ?_⟩
  · intro id
    rw [f1, startSimulation_states]
    by_cases hid : id = householdId
    · subst hid
      simp [mapGet_mapSet_self]
    · rw [mapGet_mapSet_ne _ _ _ _ hid, mapGet_mapSet_ne _ _ _ _ hid]
      exact hk id
  · unfold HandlesFresh
    rw [f1, f2, f3]
    constructor
    · intro t ht
      rcases List.mem_append.mp ht with ht | ht
      · exact Nat.lt_succ_of_lt (hf.1 t ht)
      · simp only [List.mem_singleton] at ht
        subst ht
        exact Nat.lt_succ_self _
    · intro p hp
      rcases mem_mapSet _ _ _ _ hp with hp | hp
      · subst hp
        exact Nat.lt_succ_self _
      · exact Nat.lt_succ_of_lt (hf.2 p hp)
  · unfold HandlesOwned
    rw [f1, f2]
    intro p hp t ht heq
    rcases mem_mapSet _ _ _ _ hp with hp | hp
    · subst hp
      rcases List.mem_append.mp ht with ht | ht
      · exact absurd heq (Nat.ne_of_lt (hf.1 t ht))
      · simp only [List.mem_singleton] at ht
        subst ht
        rfl
    · rcases List.mem_append.mp ht with ht | ht
      · exact ho p hp t ht heq
      · simp only [List.mem_singleton] at ht
        subst ht
        exact absurd heq.symm (Nat.ne_of_lt (hf.2 p hp))

theorem stopSimulation_wellFormed (e : Engine) (householdId : ℕ) (h : WellFormed e) :
    WellFormed (stopSimulation e householdId) := by
  obtain ⟨hk, hf, ho⟩ := h
  unfold stopSimulation
  cases hg : mapGet e.simulations householdId with
  | none => exact ⟨hk, hf, ho⟩
  | some interval =>
    refine ⟨?_, ?_, ?_⟩
    · intro id
      simp only [clearInterval]
      by_cases hid : id = householdId
      · subst hid
        simp [mapGet_mapDelete_self]
      · rw [mapGet_mapDelete_ne _ _ _ hid, mapGet_mapDelete_ne _ _ _ hid]
        exact hk id
    · constructor
      · intro t ht
        simp only [clearInterval] at ht
        exact hf.1 t (List.mem_filter.mp ht).1
      · intro p hp
        simp only [clearInterval] at hp
        exact hf.2 p (mem_mapDelete _ _ _ hp)
    · intro p hp t ht heq
      simp only [clearInterval] at hp ht
      exact ho p (mem_mapDelete _ _ _ hp) t (List.mem_filter.mp ht).1 heq

theorem foldl_stop_wellFormed (keys : List ℕ) (e : Engine) (h : WellFormed e) :
    WellFormed (keys.foldl stopSimulation e) := by
  induction keys generalizing e with
  | nil => simpa using h
  | cons k rest ih => exact ih _ (stopSimulation_wellFormed e k h)

theorem step_wellFormed (e : Engine) (op : Op) (h : WellFormed e) : WellFormed (step e op) := by
  cases op with
  | start householdId callback inp => exact startSimulation_wellFormed e householdId callback inp h
  | stop householdId => exact stopSimulation_wellFormed e householdId h
  | stopAll => exact foldl_stop_wellFormed _ e h
  | tick householdId inp =>
    exact wellFormed_of_sameShape _ _ (generateReading_sameShape e householdId inp) h
  | fire handle inp => exact wellFormed_of_sameShape _ _ (fireTimer_sameShape e handle inp) h
  | setLevel householdId level =>
    exact wellFormed_of_sameShape _ _ (setBatteryLevel_sameShape e householdId level) h
  | powerCut householdId =>
    exact wellFormed_of_sameShape _ _ (simulatePowerCut_sameShape e householdId) h

theorem empty_wellFormed : WellFormed Engine.empty := by
  refine ⟨fun _ => by simp [Engine.empty, mapGet], ⟨?_, ?_⟩, ?_⟩
  · intro t ht
    simp [Engine.empty] at ht
  · intro p hp
    simp [Engine.empty] at hp
  · intro p hp
    simp [Engine.empty] at hp

theorem run_wellFormed (ops : List Op) (e : Engine) (h : WellFormed e) :
    WellFormed (run e ops) := by
  induction ops generalizing e with
  | nil => simpa [run] using h
  | cons op rest ih => exact ih _ (step_wellFormed e op h)

/-! ## Stopping -/

theorem stopSimulation_registry_self (e : Engine) (householdId : ℕ) :
    mapGet (stopSimulation e householdId).simulations householdId = none := by
  unfold stopSimulation
  cases hg : mapGet e.simulations householdId with
  | none => simpa using hg
  | some interval => simp [clearInterval, mapGet_mapDelete_self]

theorem stopSimulation_registry_other (e : Engine) (householdId other : ℕ)
    (hne : other ≠ householdId) :
    mapGet (stopSimulation e householdId).simulations other = mapGet e.simulations other ∧
      mapGet (stopSimulation e householdId).sensorStates other =
        mapGet e.sensorStates other := by
  unfold stopSimulation
  cases hg : mapGet e.simulations householdId with
  | none => exact ⟨rfl, rfl⟩
  | some interval =>
    exact ⟨mapGet_mapDelete_ne _ _ _ hne, mapGet_mapDelete_ne _ _ _ hne⟩

theorem stopSimulation_of_absent (e : Engine) (householdId : ℕ)
    (h : mapGet e.simulations householdId = none) : stopSimulation e householdId = e := by
  simp [stopSimulation, h]

theorem stopSimulation_registry_none (e : Engine) (householdId key : ℕ)
    (h : mapGet e.simulations key = none) :
    mapGet (stopSimulation e householdId).simulations key = none := by
  by_cases hk : key = householdId
  · subst hk
    exact stopSimulation_registry_self e key
  · rw [(stopSimulation_registry_other e householdId key hk).1]
    exact h

theorem foldl_stop_registry_none (keys : List ℕ) (e : Engine) (key : ℕ)
    (h : key ∈ keys ∨ mapGet e.simulations key = none) :
    mapGet (keys.foldl stopSimulation e).simulations key = none := by
  induction keys generalizing e with
  | nil =>
    rcases h with h | h
    · simp at h
    · simpa using h
  | cons k rest ih =>
    simp only [List.foldl_cons]
    apply ih
    rcases h with h | h
    · rcases List.mem_cons.mp h with h | h
      · right
        subst h
        exact stopSimulation_registry_self e key
      · exact Or.inl h
    · exact Or.inr (stopSimulation_registry_none e k key h)

theorem stop_removes_run_of_wellFormed (e : Engine) (hw : WellFormed e) (householdId : ℕ)
    (inp : TickInput) (x : ℚ) :
    mapGet (stopSimulation e householdId).sensorStates householdId = none ∧
    mapGet (stopSimulation e householdId).simulations householdId = none ∧
    (∀ interval : ℕ, mapGet e.simulations householdId = some interval →
      ∀ t ∈ (stopSimulation e householdId).timers, t.handle ≠ interval) ∧
    generateReading (stopSimulation e householdId) householdId inp =
      (stopSimulation e householdId, none) ∧
    (setBatteryLevel (stopSimulation e householdId) householdId x).2 = false ∧
    (mapGet e.simulations householdId = none → stopSimulation e householdId = e) ∧
    stopSimulation (stopSimulation e householdId) householdId = stopSimulation e householdId ∧
    (∀ other : ℕ, other ≠ householdId →
      mapGet (stopSimulation e householdId).sensorStates other = mapGet e.sensorStates other ∧
      mapGet (stopSimulation e householdId).simulations other = mapGet e.simulations other) ∧
    (∀ t ∈ e.timers, t.householdId ≠ householdId → t ∈ (stopSimulation e householdId).timers) := by
  have hreg := stopSimulation_registry_self e householdId
  have hst : mapGet (stopSimulation e householdId).sensorStates householdId = none :=
    ((stopSimulation_wellFormed e householdId hw).1 householdId).mp hreg
  refine ⟨hst, hreg, ?_, generateReading_of_absent _ _ _ hst, ?_,
    stopSimulation_of_absent e householdId, stopSimulation_of_absent _ _ hreg, ?_, ?_⟩
  · intro interval hg t ht
    simp only [stopSimulation, hg, clearInterval] at ht
    have := (List.mem_filter.mp ht).2
    simpa using this
  · simp [setBatteryLevel, hst]
  · intro other hne
    exact ⟨(stopSimulation_registry_other e householdId other hne).2,
      (stopSimulation_registry_other e householdId other hne).1⟩
  · intro t ht hne
    unfold stopSimulation
    cases hg : mapGet e.simulations householdId with
    | none => exact ht
    | some interval =>
      simp only [clearInterval]
      apply List.mem_filter.mpr
      refine ⟨ht, ?_⟩
      have hown := hw.2.2 (householdId, interval) (mem_of_mapGet _ _ _ hg) t ht
      simp only [decide_eq_true_eq]
      intro heq
      exact hne (hown heq)

/-- C19. In every engine state reached from the empty engine, after `stopSimulation(id)` the
device has no stored state and no registry entry, and the interval that was registered for it is
no longer live; so `generateReading(id)` returns `null` and changes nothing, and
`setBatteryLevel(id, x)` returns `false`.  Stopping an id with no run changes nothing, hence
stopping twice equals stopping once.  The states and registry entries of other devices, and
the live intervals created for other devices, are untouched. -/
theorem stop_removes_run (ops : List Op) (householdId : ℕ) (inp : TickInput) (x : ℚ) :
    mapGet (stopSimulation (run Engine.empty ops) householdId).sensorStates householdId
      = none ∧
    mapGet (stopSimulation (run Engine.empty ops) householdId).simulations householdId
      = none ∧
    (∀ interval : ℕ, mapGet (run Engine.empty ops).simulations householdId = some interval →
      ∀ t ∈ (stopSimulation (run Engine.empty ops) householdId).timers,
        t.handle ≠ interval) ∧
    generateReading (stopSimulation (run Engine.empty ops) householdId) householdId inp =
      (stopSimulation (run Engine.empty ops) householdId, none) ∧
    (setBatteryLevel (stopSimulation (run Engine.empty ops) householdId) householdId x).2
      = false ∧
    (mapGet (run Engine.empty ops).simulations householdId = none →
      stopSimulation (run Engine.empty ops) householdId = run Engine.empty ops) ∧
    stopSimulation (stopSimulation (run Engine.empty ops) householdId) householdId =
      stopSimulation (run Engine.empty ops) householdId ∧
    (∀ other : ℕ, other ≠ householdId →
      mapGet (stopSimulation (run Engine.empty ops) householdId).sensorStates other =
        mapGet (run Engine.empty ops).sensorStates other ∧
      mapGet (stopSimulation (run Engine.empty ops) householdId).simulations other =
        mapGet (run Engine.empty ops).simulations other) ∧
    (∀ t ∈ (run Engine.empty ops).timers, t.householdId ≠ householdId →
      t ∈ (stopSimulation (run Engine.empty ops) householdId).timers) :=
  stop_removes_run_of_wellFormed _ (run_wellFormed ops _ empty_wellFormed) householdId inp x

/-- C20. In every engine state reached from the empty engine, `stopAllSimulations` leaves the
registry and the state map empty, and a second `stopAllSimulations` changes nothing. -/
theorem stopAll_empties (ops : List Op) :
    (stopAllSimulations (run Engine.empty ops)).simulations = [] ∧
    (stopAllSimulations (run Engine.empty ops)).sensorStates = [] ∧
    stopAllSimulations (stopAllSimulations (run Engine.empty ops)) =
      stopAllSimulations (run Engine.empty ops) := by
  have hw : WellFormed (stopAllSimulations (run Engine.empty ops)) :=
    foldl_stop_wellFormed _ _ (run_wellFormed ops _ empty_wellFormed)
  have hnone : ∀ key : ℕ,
      mapGet (stopAllSimulations (run Engine.empty ops)).simulations key = none := by
    intro key
    apply foldl_stop_registry_none
    by_cases hk : key ∈ mapKeys (run Engine.empty ops).simulations
    · exact Or.inl hk
    · exact Or.inr (mapGet_none_of_not_mem_keys _ _ hk)
  have hsim := eq_nil_of_mapGet_none _ hnone
  refine ⟨hsim, ?_, ?_⟩
  · apply eq_nil_of_mapGet_none
    intro key
    exact (hw.1 key).mp (hnone key)
  · generalize stopAllSimulations (run Engine.empty ops) = e at hsim
    simp [stopAllSimulations, hsim, mapKeys]

theorem twoHouseholds_registry :
    twoHouseholds.simulations = [(1, 1), (2, 2)] ∧
      twoHouseholds.timers = [{ handle := 1, householdId := 1, callback := 7 },
                              { handle := 2, householdId := 2, callback := 8 }] := by
  simp [twoHouseholds, run, step, startSimulation, intervalBody, deliver, generateReading,
    mapSet, mapGet, Engine.empty]

/-- C19, instance: with households 1 and 2 running, stopping household 1 removes its state, its
registry entry and its interval (handle 1), keeps the state and the interval of household 2,
and stopping the unknown household 3 changes nothing. -/
theorem stop_removes_run_witness :
    mapGet (stopSimulation twoHouseholds 1).sensorStates 1 = none ∧
    mapGet (stopSimulation twoHouseholds 1).simulations 1 = none ∧
    (∀ t ∈ (stopSimulation twoHouseholds 1).timers, t.handle ≠ 1) ∧
    stopSimulation twoHouseholds 3 = twoHouseholds ∧
    mapGet (stopSimulation twoHouseholds 1).sensorStates 2 =
      mapGet twoHouseholds.sensorStates 2 ∧
    ({ handle := 2, householdId := 2, callback := 8 } : Timer) ∈
      (stopSimulation twoHouseholds 1).timers :=
  ⟨(stop_removes_run [Op.start 1 7 noonStart, Op.start 2 8 noonStart] 1 noonTick 50).1,
   (stop_removes_run [Op.start 1 7 noonStart, Op.start 2 8 noonStart] 1 noonTick 50).2.1,
   (stop_removes_run [Op.start 1 7 noonStart, Op.start 2 8 noonStart] 1 noonTick 50).2.2.1 1
     (by rw [show run Engine.empty [Op.start 1 7 noonStart, Op.start 2 8 noonStart] =
           twoHouseholds from rfl, twoHouseholds_registry.1]; rfl),
   (stop_removes_run [Op.start 1 7 noonStart, Op.start 2 8 noonStart] 3 noonTick
     50).2.2.2.2.2.1
     (by rw [show run Engine.empty [Op.start 1 7 noonStart, Op.start 2 8 noonStart] =
           twoHouseholds from rfl, twoHouseholds_registry.1]; rfl),
   ((stop_removes_run [Op.start 1 7 noonStart, Op.start 2 8 noonStart] 1 noonTick
     50).2.2.2.2.2.2.2.1 2 (by decide)).1,
   (stop_removes_run [Op.start 1 7 noonStart, Op.start 2 8 noonStart] 1 noonTick
     50).2.2.2.2.2.2.2.2 { handle := 2, householdId := 2, callback := 8 }
     (by rw [show run Engine.empty [Op.start 1 7 noonStart, Op.start 2 8 noonStart] =
           twoHouseholds from rfl, twoHouseholds_registry.2]; simp)
     (by decide)⟩

/-! ## Starting, rounding and determinism -/

theorem startSimulation_delivered (e : Engine) (householdId callback : ℕ) (inp : StartInput) :
    (startSimulation e householdId callback inp).delivered =
      e.delivered ++ [(callback, some (tickBody (initialState inp) inp.first).2)] := by
  simp [startSimulation, intervalBody, deliver, generateReading, mapGet_mapSet_self]

/-- C21. For every engine state, id, sink and level draw `r` in `[0, 1)`, `startSimulation`
builds an initial state whose level `floor(60 r) + 40` is an integer in `[40, 99]`, stores for
the id that state advanced by the first reading (whatever was stored before), calls the sink
exactly once, with that non-null reading, and registers under the id a new interval with a
period of 5000 ms bound to the id and the sink. -/
theorem start_creates_and_delivers (e : Engine) (householdId callback : ℕ) (inp : StartInput)
    (r0 : 0 ≤ inp.levelDraw) (r1 : inp.levelDraw < 1) :
    (∃ n : ℤ, (initialState inp).batteryLevel = (n : ℚ) ∧ 40 ≤ n ∧ n ≤ 99) ∧
    (initialState inp).batteryLevel = (⌊60 * inp.levelDraw⌋ : ℚ) + 40 ∧
    mapGet (startSimulation e householdId callback inp).sensorStates householdId =
      some (tickBody (initialState inp) inp.first).1 ∧
    (startSimulation e householdId callback inp).delivered =
      e.delivered ++ [(callback, some (tickBody (initialState inp) inp.first).2)] ∧
    (startSimulation e householdId callback inp).timers =
      e.timers ++ [{ handle := e.nextHandle, householdId := householdId,
                     callback := callback, period := 5000 }] ∧
    mapGet (startSimulation e householdId callback inp).simulations householdId =
      some e.nextHandle := by
  have hf0 : (0 : ℤ) ≤ ⌊inp.levelDraw * 60⌋ := Int.floor_nonneg.mpr (by linarith)
  have hf1 : ⌊inp.levelDraw * 60⌋ < 60 := by
    rw [Int.floor_lt]
    push_cast
    linarith
  obtain ⟨f1, f2, -⟩ := startSimulation_fields e householdId callback inp
  refine ⟨⟨⌊inp.levelDraw * 60⌋ + 40, ?_, by omega, by omega⟩, ?_, ?_,
    startSimulation_delivered e householdId callback inp, f2, ?_⟩
  · simp [initialState, mathFloor]
  · simp [initialState, mathFloor, mul_comm]
  · rw [startSimulation_states]
    exact mapGet_mapSet_self _ _ _
  · rw [f1]
    exact mapGet_mapSet_self _ _ _

/-- C21, instance: household 1 started again, with sink 9, while households 1 and 2 run. -/
theorem start_creates_and_delivers_witness :
    (∃ n : ℤ, (initialState noonStart).batteryLevel = (n : ℚ) ∧ 40 ≤ n ∧ n ≤ 99) ∧
    (initialState noonStart).batteryLevel = (⌊60 * noonStart.levelDraw⌋ : ℚ) + 40 ∧
    mapGet (startSimulation twoHouseholds 1 9 noonStart).sensorStates 1 =
      some (tickBody (initialState noonStart) noonStart.first).1 ∧
    (startSimulation twoHouseholds 1 9 noonStart).delivered =
      twoHouseholds.delivered ++
        [(9, some (tickBody (initialState noonStart) noonStart.first).2)] ∧
    (startSimulation twoHouseholds 1 9 noonStart).timers =
      twoHouseholds.timers ++ [{ handle := twoHouseholds.nextHandle, householdId := 1,
                                 callback := 9, period := 5000 }] ∧
    mapGet (startSimulation twoHouseholds 1 9 noonStart).simulations 1 =
      some twoHouseholds.nextHandle :=
  start_creates_and_delivers twoHouseholds 1 9 noonStart (by norm_num [noonStart])
    (by norm_num [noonStart])

theorem mathRound_near (y : ℚ) :
    (mathRound y : ℚ) - y ≤ 1 / 2 ∧ y - (mathRound y : ℚ) < 1 / 2 := by
  unfold mathRound
  have h1 := Int.floor_le (y + 1 / 2)
  have h2 := Int.lt_floor_add_one (y + 1 / 2)
  constructor
  · linarith
  · linarith

theorem virtualHour_noonNextDay : virtualHour 2165000 = 12 := by
  rw [virtualHour_of_nonneg _ (by norm_num)]
  norm_num

/-- C22. After a tick the stored level is the unrounded `clamp(old + delta, 0, 100)`, while the
reading's level is `round(stored * 10) / 10`, within 0.05 of the stored level and in
`[0, 100]`; after a second tick the stored level is `clamp(stored1 + delta2, 0, 100)` with
`stored1` the unrounded level stored by the first tick.  From level 50, the noon tick stores a
level that differs from the level it reports. -/
theorem rounding_presentation_only (state : SensorState) (inp1 inp2 : TickInput) :
    (tickBody state inp1).1.batteryLevel =
      clamp (state.batteryLevel +
        (((tickBody state inp1).1.solarGeneration - (tickBody state inp1).1.powerConsumption) *
          (((inp1.now - state.lastUpdate : ℤ) : ℚ) / 1000) / 3600) / 100 * 100) 0 100 ∧
    (tickBody state inp1).2.batteryLevel =
      (mathRound ((tickBody state inp1).1.batteryLevel * 10) : ℚ) / 10 ∧
    |(tickBody state inp1).2.batteryLevel - (tickBody state inp1).1.batteryLevel| ≤ 0.05 ∧
    0 ≤ (tickBody state inp1).2.batteryLevel ∧
    (tickBody state inp1).2.batteryLevel ≤ 100 ∧
    (tickBody (tickBody state inp1).1 inp2).1.batteryLevel =
      clamp ((tickBody state inp1).1.batteryLevel +
        (((tickBody (tickBody state inp1).1 inp2).1.solarGeneration -
            (tickBody (tickBody state inp1).1 inp2).1.powerConsumption) *
          (((inp2.now - inp1.now : ℤ) : ℚ) / 1000) / 3600) / 100 * 100) 0 100 ∧
    (tickBody levelFifty noonTick).1.batteryLevel ≠
      (tickBody levelFifty noonTick).2.batteryLevel := by
  have hstep : ∀ (s : SensorState) (i : TickInput), (tickBody s i).1.batteryLevel =
      clamp (s.batteryLevel +
        (((tickBody s i).1.solarGeneration - (tickBody s i).1.powerConsumption) *
          (((i.now - s.lastUpdate : ℤ) : ℚ) / 1000) / 3600) / 100 * 100) 0 100 := by
    intro s i
    simp only [tickBody, deltaCharge]
    exact clamp_eq_max_min _
  have hc := tickBody_level_clamped state inp1
  have hnear := mathRound_near ((tickBody state inp1).1.batteryLevel * 10)
  have hb := mathRound_bounds ((tickBody state inp1).1.batteryLevel * 10) 0 1000
    (by push_cast; linarith [hc.1]) (by push_cast; linarith [hc.2])
  have hb0 : (0 : ℚ) ≤ (mathRound ((tickBody state inp1).1.batteryLevel * 10) : ℚ) := by
    exact_mod_cast hb.1
  have hb1 : (mathRound ((tickBody state inp1).1.batteryLevel * 10) : ℚ) ≤ 1000 := by
    exact_mod_cast hb.2
  have hr : (tickBody state inp1).2.batteryLevel =
      (mathRound ((tickBody state inp1).1.batteryLevel * 10) : ℚ) / 10 := rfl
  refine ⟨hstep state inp1, hr, ?_, ?_, ?_, ?_, ?_⟩
  · rw [hr, abs_le]
    constructor
    · norm_num
      linarith [hnear.2]
    · norm_num
      linarith [hnear.1]
  · rw [hr]
    positivity
  · rw [hr]
    linarith
  · have h2 := hstep (tickBody state inp1).1 inp2
    have hl : (tickBody state inp1).1.lastUpdate = inp1.now := rfl
    rw [hl] at h2
    exact h2
  · have hs : (tickBody levelFifty noonTick).1.batteryLevel = 50 + 79 / 14400 := by
      rw [tickBody_level_eq, (noonTick_stored_values levelFifty).1,
        (noonTick_stored_values levelFifty).2]
      norm_num [levelFifty, noonTick]
    have hrd : (tickBody levelFifty noonTick).2.batteryLevel = 50 := by
      have e : (tickBody levelFifty noonTick).2.batteryLevel =
          (mathRound ((tickBody levelFifty noonTick).1.batteryLevel * 10) : ℚ) / 10 := rfl
      rw [e, hs]
      have hm : mathRound ((50 + 79 / 14400 : ℚ) * 10) = 500 := by
        unfold mathRound
        rw [Int.floor_eq_iff]
        constructor
        · norm_num
        · norm_num
      rw [hm]
      norm_num
    rw [hs, hrd]
    norm_num

/-- C23. With the three noise draws fixed, two ticks that start from the same stored level,
have the same elapsed time and fall in the same virtual hour produce readings that agree in
every field other than `timestamp`, whatever the clock values and the other stored fields. -/
theorem tick_deterministic (s1 s2 : SensorState) (i1 i2 : TickInput)
    (hb : s1.batteryLevel = s2.batteryLevel)
    (hdt : i1.now - s1.lastUpdate = i2.now - s2.lastUpdate)
    (hh : virtualHour i1.now = virtualHour i2.now)
    (hn : i1.solarNoise = i2.solarNoise) (hl : i1.loadDraw = i2.loadDraw)
    (ha : i1.ambientDraw = i2.ambientDraw) :
    (tickBody s1 i1).2.batteryLevel = (tickBody s2 i2).2.batteryLevel ∧
    (tickBody s1 i1).2.voltage = (tickBody s2 i2).2.voltage ∧
    (tickBody s1 i1).2.current = (tickBody s2 i2).2.current ∧
    (tickBody s1 i1).2.powerConsumption = (tickBody s2 i2).2.powerConsumption ∧
    (tickBody s1 i1).2.solarGeneration = (tickBody s2 i2).2.solarGeneration ∧
    (tickBody s1 i1).2.temperature = (tickBody s2 i2).2.temperature ∧
    (tickBody s1 i1).2.timeOfDay = (tickBody s2 i2).2.timeOfDay ∧
    (tickBody s1 i1).2.isDaytime = (tickBody s2 i2).2.isDaytime := by
  simp [tickBody, hb, hdt, hh, hn, hl, ha]

/-- C23, instance: the noon tick from level 50 and the same tick one virtual day later, from a
state with the same level but other stored fields; the two time stamps differ. -/
theorem tick_deterministic_witness :
    (tickBody levelFifty noonTick).2.batteryLevel =
      (tickBody levelFiftyNextDay noonTickNextDay).2.batteryLevel ∧
    (tickBody levelFifty noonTick).2.voltage =
      (tickBody levelFiftyNextDay noonTickNextDay).2.voltage ∧
    (tickBody levelFifty noonTick).2.current =
      (tickBody levelFiftyNextDay noonTickNextDay).2.current ∧
    (tickBody levelFifty noonTick).2.powerConsumption =
      (tickBody levelFiftyNextDay noonTickNextDay).2.powerConsumption ∧
    (tickBody levelFifty noonTick).2.solarGeneration =
      (tickBody levelFiftyNextDay noonTickNextDay).2.solarGeneration ∧
    (tickBody levelFifty noonTick).2.temperature =
      (tickBody levelFiftyNextDay noonTickNextDay).2.temperature ∧
    (tickBody levelFifty noonTick).2.timeOfDay =
      (tickBody levelFiftyNextDay noonTickNextDay).2.timeOfDay ∧
    (tickBody levelFifty noonTick).2.isDaytime =
      (tickBody levelFiftyNextDay noonTickNextDay).2.isDaytime :=
  tick_deterministic levelFifty levelFiftyNextDay noonTick noonTickNextDay rfl (by decide)
    (by rw [show noonTick.now = 725000 from rfl, show noonTickNextDay.now = 2165000 from rfl,
          virtualHour_noon, virtualHour_noonNextDay])
    rfl rfl rfl

theorem mem_mapKeys_iff {β : Type} (m : List (ℕ × β)) (key : ℕ) :
    key ∈ mapKeys m ↔ mapGet m key ≠ none := by
  induction m with
  | nil => simp [mapKeys, mapGet]
  | cons p rest ih =>
    obtain ⟨k, v⟩ := p
    by_cases hk : k = key
    · simp [mapKeys, mapGet, hk]
    · have hk' : ¬ key = k := fun h => hk h.symm
      simp only [mapKeys, List.map_cons, List.mem_cons, mapGet, hk, hk', if_false,
        false_or]
      exact ih

/-- C27. In every engine state reached from the empty engine by any sequence of
`startSimulation`, `stopSimulation`, `stopAllSimulations`, `generateReading`, `setBatteryLevel`,
`simulatePowerCut` calls and interval firings, an id has an entry in `simulations` exactly when
it has an entry in `sensorStates`. -/
theorem registry_matches_states (ops : List Op) (householdId : ℕ) :
    householdId ∈ mapKeys (run Engine.empty ops).simulations ↔
      householdId ∈ mapKeys (run Engine.empty ops).sensorStates := by
  have hk := (run_wellFormed ops _ empty_wellFormed).1 householdId
  rw [mem_mapKeys_iff, mem_mapKeys_iff, Ne, Ne, hk]

/-! ## Phone numbers -/

theorem listStartsWith_split (l p : List Char) (h : listStartsWith l p = true) :
    ∃ t, l = p ++ t := by
  induction p generalizing l with
  | nil => exact ⟨l, rfl⟩
  | cons c ps ih =>
    cases l with
    | nil => simp [listStartsWith] at h
    | cons d s =>
      simp only [listStartsWith, Bool.and_eq_true, beq_iff_eq] at h
      obtain ⟨t, ht⟩ := ih s h.2
      exact ⟨t, by rw [h.1, ht]; rfl⟩

theorem listStartsWith_append_self (p t : List Char) : listStartsWith (p ++ t) p = true := by
  induction p with
  | nil => cases t <;> rfl
  | cons c ps ih => simp [listStartsWith, ih]

/-- The digits that `formatPhoneNumber` keeps after the country code. -/
theorem formatPhoneNumber_shape (s : String) :
    ∃ digits : List Char, (∀ c ∈ digits, c.isDigit = true) ∧
      formatPhoneNumber s = String.mk ('+' :: '2' :: '5' :: '4' :: digits) := by
  have hall : ∀ c ∈ s.toList.filter Char.isDigit, c.isDigit = true := by
    intro c hc
    exact (List.mem_filter.mp hc).2
  unfold formatPhoneNumber
  generalize s.toList.filter Char.isDigit = cleaned at hall
  simp only
  split_ifs with h0 h7 h254
  · exact ⟨cleaned.drop 1, fun c hc => hall c (List.mem_of_mem_drop hc), rfl⟩
  · exact ⟨cleaned, hall, rfl⟩
  · exact ⟨cleaned, hall, rfl⟩
  · simp only [Bool.not_eq_true', Bool.not_eq_false] at h254
    obtain ⟨t, ht⟩ := listStartsWith_split _ _ h254
    refine ⟨t, fun c hc => hall c ?_, ?_⟩
    · rw [ht]
      exact List.mem_append_right _ hc
    · rw [ht]
      rfl

theorem formatPhoneNumber_of_shape (digits : List Char)
    (hd : ∀ c ∈ digits, c.isDigit = true) :
    formatPhoneNumber (String.mk ('+' :: '2' :: '5' :: '4' :: digits)) =
      String.mk ('+' :: '2' :: '5' :: '4' :: digits) := by
  have hf : digits.filter Char.isDigit = digits := List.filter_eq_self.mpr hd
  have h1 : ('+' : Char).isDigit = false := by decide
  have h2 : ('2' : Char).isDigit = true := by decide
  have h3 : ('5' : Char).isDigit = true := by decide
  have h4 : ('4' : Char).isDigit = true := by decide
  have hc : (String.mk ('+' :: '2' :: '5' :: '4' :: digits)).toList.filter Char.isDigit =
      '2' :: '5' :: '4' :: digits := by
    simp [List.filter, h1, h2, h3, h4, hf]
  unfold formatPhoneNumber
  rw [hc]
  have e0 : listStartsWith ('2' :: '5' :: '4' :: digits) ['0'] = false := by
    simp [listStartsWith]
  have e7 : listStartsWith ('2' :: '5' :: '4' :: digits) ['7'] = false := by
    simp [listStartsWith]
  have e1 : listStartsWith ('2' :: '5' :: '4' :: digits) ['1'] = false := by
    simp [listStartsWith]
  have e254 : listStartsWith ('2' :: '5' :: '4' :: digits) ['2', '5', '4'] = true :=
    listStartsWith_append_self ['2', '5', '4'] digits
  simp [e0, e7, e1, e254]

/-- C29. For every input string, `formatPhoneNumber` returns "+254" followed only by digits,
and applying it to its own result changes nothing; "0710677582", "710677582", "254710677582"
and "+254710677582" all give "+254710677582". -/
theorem phone_normalisation (s : String) :
    (∃ digits : List Char, (∀ c ∈ digits, c.isDigit = true) ∧
      formatPhoneNumber s = "+254" ++ String.mk digits) ∧
    formatPhoneNumber (formatPhoneNumber s) = formatPhoneNumber s ∧
    formatPhoneNumber "0710677582" = "+254710677582" ∧
    formatPhoneNumber "710677582" = "+254710677582" ∧
    formatPhoneNumber "254710677582" = "+254710677582" ∧
    formatPhoneNumber "+254710677582" = "+254710677582" := by
  obtain ⟨digits, hd, hs⟩ := formatPhoneNumber_shape s
  refine ⟨⟨digits, hd, ?_⟩, ?_, ?_, ?_, ?_, ?_⟩
  · rw [hs]
    rfl
  · rw [hs]
    exact formatPhoneNumber_of_shape digits hd
  · decide
  · decide
  · decide
  · decide

/-! ## Reading history -/

theorem pushCapped_lastN {α : Type} (ys : List α) (y : α) :
    pushCapped (lastN 100 ys) y 100 = lastN 100 (ys ++ [y]) := by
  unfold pushCapped lastN
  by_cases h : ys.length < 100
  · have h0 : ys.length - 100 = 0 := by omega
    have h1 : (ys ++ [y]).length - 100 = 0 := by
      simp only [List.length_append, List.length_singleton]
      omega
    rw [h0, h1]
    simp only [List.drop_zero, List.length_append, List.length_singleton]
    rw [if_neg (by omega)]
  · have hlen : (ys.drop (ys.length - 100) ++ [y]).length > 100 := by
      simp only [List.length_append, List.length_drop, List.length_singleton]
      omega
    rw [if_pos hlen]
    have h1 : (ys ++ [y]).length - 100 = (ys.length - 100) + 1 := by
      simp only [List.length_append, List.length_singleton]
      omega
    rw [h1, ← List.drop_one, List.drop_append_of_le_length (by
      simp only [List.length_drop]
      omega), List.drop_drop, List.drop_append_of_le_length (by omega)]

theorem addSensorReading_stored (db : Database) (householdId : ℕ) (x : AddInput) :
    (mapGet (addSensorReading db householdId x.data x.stamp x.now).1.sensorData
        householdId).getD [] =
      pushCapped ((mapGet db.sensorData householdId).getD []) (storedOf x) 100 := by
  simp [addSensorReading, mapGet_mapSet_self, storedOf]

theorem addAllReadings_snoc (db : Database) (householdId : ℕ) (xs : List AddInput)
    (x : AddInput) :
    addAllReadings db householdId (xs ++ [x]) =
      (addSensorReading (addAllReadings db householdId xs) householdId x.data x.stamp
        x.now).1 := by
  simp [addAllReadings, List.foldl_append]

theorem addAllReadings_stored (db : Database) (householdId : ℕ)
    (h0 : (mapGet db.sensorData householdId).getD [] = []) (xs : List AddInput) :
    (mapGet (addAllReadings db householdId xs).sensorData householdId).getD [] =
      lastN 100 (xs.map storedOf) := by
  induction xs using List.reverseRecOn with
  | nil => simpa [addAllReadings, lastN] using h0
  | append_singleton xs x ih =>
    rw [addAllReadings_snoc, addSensorReading_stored, ih, pushCapped_lastN]
    simp

/-- C26. Starting from an empty list for a household, after any sequence of `n`
`addSensorReading` calls the stored list has at most 100 entries, exactly `min(n, 100)` of
them, namely the most recent ones in insertion order; and `getLastSensorReading` returns the
reading added last. -/
theorem history_capped (db : Database) (householdId : ℕ) (xs : List AddInput)
    (h0 : (mapGet db.sensorData householdId).getD [] = []) :
    ((mapGet (addAllReadings db householdId xs).sensorData householdId).getD []).length
      ≤ 100 ∧
    ((mapGet (addAllReadings db householdId xs).sensorData householdId).getD []).length
      = min xs.length 100 ∧
    (mapGet (addAllReadings db householdId xs).sensorData householdId).getD [] =
      (xs.map storedOf).drop (xs.length - 100) ∧
    (∀ (ys : List AddInput) (x : AddInput), xs = ys ++ [x] →
      getLastSensorReading (addAllReadings db householdId xs) householdId =
        some (storedOf x)) := by
  have hs := addAllReadings_stored db householdId h0 xs
  have hl : lastN 100 (xs.map storedOf) = (xs.map storedOf).drop (xs.length - 100) := by
    simp [lastN]
  rw [hl] at hs
  refine ⟨?_, ?_, hs, ?_⟩
  · rw [hs]
    simp only [List.length_drop, List.length_map]
    omega
  · rw [hs]
    simp only [List.length_drop, List.length_map]
    omega
  · intro ys x hx
    unfold getLastSensorReading
    rw [hs, hx]
    rw [List.map_append, List.drop_append_of_le_length (by simp)]
    simp

/-- C26, instance: two readings added for a freshly created household. -/
theorem history_capped_witness :
    ((mapGet (addAllReadings freshDb 1 twoReadings).sensorData 1).getD []).length ≤ 100 ∧
    ((mapGet (addAllReadings freshDb 1 twoReadings).sensorData 1).getD []).length
      = min twoReadings.length 100 ∧
    getLastSensorReading (addAllReadings freshDb 1 twoReadings) 1 =
      some (storedOf { data := readingAt 61, stamp := 3, now := 4 }) :=
  ⟨(history_capped freshDb 1 twoReadings rfl).1,
   (history_capped freshDb 1 twoReadings rfl).2.1,
   (history_capped freshDb 1 twoReadings rfl).2.2.2
     [{ data := readingAt 60, stamp := 1, now := 2 }]
     { data := readingAt 61, stamp := 3, now := 4 } rfl⟩

theorem arraySlice_neg_succ {α : Type} (xs : List α) (n : ℕ) :
    arraySlice xs (-((n : ℤ) + 1)) = lastN (n + 1) xs := by
  unfold arraySlice lastN
  have hneg : -((n : ℤ) + 1) < 0 := by omega
  simp only [hneg, if_true]
  congr 1
  omega

/-- C25, at the failing input: household 1 has a last stored reading at 99.9 percent; a
reading at 100 percent arrives at the sink and every SMS send succeeds, yet no alert is added,
because the sink stores the reading first and `checkAndSendAlerts` then compares the reading
with itself.  Run on the database as it was before the reading is stored, `checkAndSendAlerts`
does add the "battery_full" alert. -/
theorem full_battery_alert_missed (host : Host) :
    (∃ prev : StoredReading, getLastSensorReading almostFullDb 1 = some prev ∧
      prev.data.batteryLevel < 100) ∧
    (readingAt 100).batteryLevel ≥ 100 ∧
    allSmsOk.full.ok = true ∧
    getHousehold almostFullDb 1 = some cheptoo ∧
    getAlerts almostFullDb 1 = [] ∧
    getAlerts (sensorSink host almostFullDb 1 (readingAt 100) allSmsOk) 1 = [] ∧
    (getAlerts (checkAndSendAlerts host almostFullDb 1 (readingAt 100) allSmsOk) 1).map
      (fun a => a.alertType) = ["battery_full"] := by
  refine ⟨⟨storedOf { data := readingAt 99.9, stamp := 10, now := 10 }, ?_, ?_⟩, ?_, rfl,
    ?_, ?_, ?_, ?_⟩
  · simp [almostFullDb, freshDb, getLastSensorReading, addSensorReading, createHousehold,
      Database.empty, mapSet, mapGet, pushCapped, storedOf]
  · norm_num [storedOf, readingAt]
  · norm_num [readingAt]
  · simp [almostFullDb, freshDb, getHousehold, addSensorReading, createHousehold,
      Database.empty, cheptoo, List.find?, JsValue.orZero]
  · simp [almostFullDb, freshDb, getAlerts, addSensorReading, createHousehold, Database.empty,
      mapSet, mapGet]
  · simp [sensorSink, checkAndSendAlerts, sendAndRecord, almostFullDb, freshDb, getAlerts,
      getLastSensorReading, getHousehold, addSensorReading, createHousehold, Database.empty,
      mapSet, mapGet, pushCapped, readingAt]
  · simp [checkAndSendAlerts, sendAndRecord, almostFullDb, freshDb, getAlerts, addAlert,
      getLastSensorReading, getHousehold, addSensorReading, createHousehold, Database.empty,
      mapSet, mapGet, pushCapped, readingAt, allSmsOk]
    norm_num
    simp [mapGet]

/-! ## USSD menus -/

theorem find_updateHouseholdWith (f : Household → Household) (hf : ∀ h, (f h).id = h.id)
    (id : ℕ) (l : List Household) (h : Household)
    (hfind : l.find? (fun x => x.id = id) = some h) :
    (updateHouseholdWith f id l).find? (fun x => x.id = id) = some (f h) := by
  induction l with
  | nil => simp at hfind
  | cons x rest ih =>
    by_cases hx : x.id = id
    · simp only [List.find?, hx, decide_True, Option.some.injEq] at hfind
      subst hfind
      simp [updateHouseholdWith, hx, List.find?, hf]
    · simp only [List.find?, hx, decide_False] at hfind
      simp [updateHouseholdWith, hx, List.find?, ih hfind]

theorem getHousehold_of_mem (db : Database) (h : Household) (hm : h ∈ db.households) :
    ∃ h' : Household, h' ∈ db.households ∧ getHousehold db h.id = some h' := by
  unfold getHousehold
  cases hf : db.households.find? (fun x => x.id = h.id) with
  | some h' => exact ⟨h', List.mem_of_find?_eq_some hf, rfl⟩
  | none =>
    have := List.find?_eq_none.mp hf h hm
    simp at this

theorem addPayment_effect (host : Host) (db : Database) (household : Household) (amount : ℚ)
    (inp : UssdInput) (hh : getHousehold db household.id = some household) :
    getPayments (addPayment host db household.id amount "airtime" inp.now inp.stamp
        inp.seen).1 household.id =
        getPayments db household.id ++ [airtimePayment inp amount] ∧
      getHousehold (addPayment host db household.id amount "airtime" inp.now inp.stamp
        inp.seen).1 household.id =
        some { household with balance := household.balance.plus host amount
                              lastSeen := inp.seen } := by
  constructor
  · simp [getPayments, addPayment, mapGet_mapSet_self, airtimePayment]
  · unfold getHousehold at hh ⊢
    simp only [addPayment]
    exact find_updateHouseholdWith
      (fun h => { h with balance := h.balance.plus host amount, lastSeen := inp.seen })
      (fun _ => rfl) _ _ _ hh

theorem handlePaymentMenu_paid (host : Host) (menuPath : List String) (household : Household)
    (db : Database) (inp : UssdInput) (b : ℚ) (amount : ℤ)
    (hh : getHousehold db household.id = some household)
    (hb : household.balance = JsValue.num b) (h1 : menuPath.length ≠ 1)
    (hs : selectedAmount host menuPath = some amount) (hlo : 1 ≤ amount) (hhi : amount ≤ 1000)
    (hok : inp.airtimeOk = true) :
    handlePaymentMenu host menuPath household db inp =
      ((addPayment host db household.id amount "airtime" inp.now inp.stamp inp.seen).1,
        some { response := "END Payment successful!\nKES " ++ host.showNumber amount ++
                 " added to your SolarPay account.\nNew balance: KES " ++
                 host.toFixed2 (b + amount)
               endSession := true }) := by
  have he := addPayment_effect host db household (amount : ℚ) inp hh
  have hv : amount > 0 ∧ amount ≤ 1000 := ⟨by omega, hhi⟩
  unfold handlePaymentMenu
  rw [if_neg h1, hs]
  simp only [hv, and_self, if_true, hok, he.2, Option.bind, hb, JsValue.plus, JsValue.toFixed2]

theorem handlePaymentMenu_changes (host : Host) (menuPath : List String)
    (household : Household) (db : Database) (inp : UssdInput)
    (h : (handlePaymentMenu host menuPath household db inp).1 ≠ db) :
    menuPath.length ≠ 1 ∧ inp.airtimeOk = true ∧
      ∃ amount : ℤ, selectedAmount host menuPath = some amount ∧ 1 ≤ amount ∧
        amount ≤ 1000 := by
  unfold handlePaymentMenu at h
  by_cases h1 : menuPath.length = 1
  · simp [h1] at h
  · rw [if_neg h1] at h
    cases hs : selectedAmount host menuPath with
    | none => simp [hs] at h
    | some amount =>
      rw [hs] at h
      simp only at h
      by_cases hv : amount > 0 ∧ amount ≤ 1000
      · by_cases hok : inp.airtimeOk = true
        · exact ⟨h1, hok, amount, rfl, by omega, hv.2⟩
        · simp [hv, hok] at h
      · rw [if_neg hv] at h
        exact absurd rfl h

/-- C30, amended. For a household stored in the database whose balance is a number `b`:
the two CON prompts leave the database unchanged; when the selected amount is an integer in
`1..1000` and the airtime payment succeeds, exactly one payment of that amount is appended,
the balance becomes `b + amount` and the reply is the success message; when the payment fails
the database is unchanged; a selected amount outside `1..1000` yields the "Invalid amount" END
response with the database unchanged; the database changes in no other case; and choices 1,
2, 3 credit 50, 100, 200. -/
theorem topups_bounded (host : Host) (menuPath : List String) (household : Household)
    (db : Database) (inp : UssdInput) (b : ℚ)
    (hh : getHousehold db household.id = some household)
    (hb : household.balance = JsValue.num b) :
    (menuPath.length = 1 →
      handlePaymentMenu host menuPath household db inp =
        (db, some { response := "CON Pay with Airtime\nSelect amount:\n1. KES 50\n2. KES 100\n3. KES 200\n4. Custom amount"
                    endSession := false })) ∧
    (menuPath.length ≠ 1 → selectedAmount host menuPath = none →
      handlePaymentMenu host menuPath household db inp =
        (db, some { response := "CON Enter amount (KES):", endSession := false })) ∧
    (∀ amount : ℤ, menuPath.length ≠ 1 → selectedAmount host menuPath = some amount →
      1 ≤ amount → amount ≤ 1000 → inp.airtimeOk = true →
      getPayments (handlePaymentMenu host menuPath household db inp).1 household.id =
        getPayments db household.id ++ [airtimePayment inp amount] ∧
      getHousehold (handlePaymentMenu host menuPath household db inp).1 household.id =
        some { household with balance := JsValue.num (b + amount), lastSeen := inp.seen } ∧
      (handlePaymentMenu host menuPath household db inp).2 =
        some { response := "END Payment successful!\nKES " ++ host.showNumber amount ++
                 " added to your SolarPay account.\nNew balance: KES " ++
                 host.toFixed2 (b + amount)
               endSession := true }) ∧
    (∀ amount : ℤ, menuPath.length ≠ 1 → selectedAmount host menuPath = some amount →
      1 ≤ amount → amount ≤ 1000 → inp.airtimeOk = false →
      handlePaymentMenu host menuPath household db inp =
        (db, some { response := "END Payment failed. Please ensure you have sufficient airtime and try again."
                    endSession := true })) ∧
    (∀ amount : ℤ, menuPath.length ≠ 1 → selectedAmount host menuPath = some amount →
      ¬ (1 ≤ amount ∧ amount ≤ 1000) →
      handlePaymentMenu host menuPath household db inp =
        (db, some { response := "END Invalid amount. Please enter between KES 1-1000."
                    endSession := true })) ∧
    ((handlePaymentMenu host menuPath household db inp).1 ≠ db →
      menuPath.length ≠ 1 ∧ inp.airtimeOk = true ∧
        ∃ amount : ℤ, selectedAmount host menuPath = some amount ∧ 1 ≤ amount ∧
          amount ≤ 1000) ∧
    (∀ (first : String) (rest : List String), inp.airtimeOk = true →
      getPayments (handlePaymentMenu host (first :: "1" :: rest) household db inp).1
          household.id = getPayments db household.id ++ [airtimePayment inp 50] ∧
      getPayments (handlePaymentMenu host (first :: "2" :: rest) household db inp).1
          household.id = getPayments db household.id ++ [airtimePayment inp 100] ∧
      getPayments (handlePaymentMenu host (first :: "3" :: rest) household db inp).1
          household.id = getPayments db household.id ++ [airtimePayment inp 200] ∧
      (getHousehold (handlePaymentMenu host (first :: "1" :: rest) household db inp).1
          household.id).map (fun h => h.balance) = some (JsValue.num (b + 50)) ∧
      (getHousehold (handlePaymentMenu host (first :: "2" :: rest) household db inp).1
          household.id).map (fun h => h.balance) = some (JsValue.num (b + 100)) ∧
      (getHousehold (handlePaymentMenu host (first :: "3" :: rest) household db inp).1
          household.id).map (fun h => h.balance) = some (JsValue.num (b + 200))) := by
  have paid : ∀ (path : List String) (amount : ℤ), path.length ≠ 1 →
      selectedAmount host path = some amount → 1 ≤ amount → amount ≤ 1000 →
      inp.airtimeOk = true →
      getPayments (handlePaymentMenu host path household db inp).1 household.id =
        getPayments db household.id ++ [airtimePayment inp amount] ∧
      getHousehold (handlePaymentMenu host path household db inp).1 household.id =
        some { household with balance := JsValue.num (b + amount), lastSeen := inp.seen } ∧
      (handlePaymentMenu host path household db inp).2 =
        some { response := "END Payment successful!\nKES " ++ host.showNumber amount ++
                 " added to your SolarPay account.\nNew balance: KES " ++
                 host.toFixed2 (b + amount)
               endSession := true } := by
    intro path amount h1 hs hlo hhi hok
    have he := addPayment_effect host db household (amount : ℚ) inp hh
    rw [handlePaymentMenu_paid host path household db inp b amount hh hb h1 hs hlo hhi hok]
    refine ⟨he.1, ?_, rfl⟩
    rw [he.2, hb]
    rfl
  refine ⟨?_, ?_, fun amount => paid menuPath amount, ?_, ?_,
    handlePaymentMenu_changes host menuPath household db inp, ?_⟩
  · intro h1
    simp [handlePaymentMenu, h1]
  · intro h1 hs
    unfold handlePaymentMenu
    rw [if_neg h1, hs]
  · intro amount h1 hs hlo hhi hok
    have hv : amount > 0 ∧ amount ≤ 1000 := ⟨by omega, hhi⟩
    unfold handlePaymentMenu
    rw [if_neg h1, hs]
    simp [hv, hok]
  · intro amount h1 hs hv
    have hv' : ¬ (amount > 0 ∧ amount ≤ 1000) := fun h => hv ⟨by omega, h.2⟩
    unfold handlePaymentMenu
    rw [if_neg h1, hs]
    simp only [hv', if_false]
  · intro first rest hok
    have p1 := paid (first :: "1" :: rest) 50 (by simp) (by simp [selectedAmount])
      (by decide) (by decide) hok
    have p2 := paid (first :: "2" :: rest) 100 (by simp) (by simp [selectedAmount])
      (by decide) (by decide) hok
    have p3 := paid (first :: "3" :: rest) 200 (by simp) (by simp [selectedAmount])
      (by decide) (by decide) hok
    refine ⟨?_, ?_, ?_, ?_, ?_, ?_⟩
    · simpa using p1.1
    · simpa using p2.1
    · simpa using p3.1
    · rw [p1.2.1]
      simp
    · rw [p2.2.1]
      simp
    · rw [p3.2.1]
      simp

theorem freshDb_cheptoo : getHousehold freshDb cheptoo.id = some cheptoo := by
  decide

/-- C30 as amended, instance: for the sample household (balance 150) the path 3*2 with a
successful airtime payment appends one payment of 100 and makes the balance 250; the path
3*4 asks for the amount and the path 3*4*7500, which `parseInt` reads as 7500, is answered
with "Invalid amount"; both leave the database unchanged. -/
theorem topups_bounded_witness :
    getPayments (handlePaymentMenu sampleHost ["3", "2"] cheptoo freshDb paidInput).1
        cheptoo.id =
      getPayments freshDb cheptoo.id ++ [airtimePayment paidInput ((100 : ℤ) : ℚ)] ∧
    getHousehold (handlePaymentMenu sampleHost ["3", "2"] cheptoo freshDb paidInput).1
        cheptoo.id =
      some { cheptoo with balance := JsValue.num (150 + ((100 : ℤ) : ℚ))
                          lastSeen := paidInput.seen } ∧
    handlePaymentMenu sampleHost ["3", "4"] cheptoo freshDb paidInput =
      (freshDb, some { response := "CON Enter amount (KES):", endSession := false }) ∧
    handlePaymentMenu sampleHost ["3", "4", "7500"] cheptoo freshDb paidInput =
      (freshDb, some { response := "END Invalid amount. Please enter between KES 1-1000."
                       endSession := true }) :=
  ⟨((topups_bounded sampleHost ["3", "2"] cheptoo freshDb paidInput 150 freshDb_cheptoo
      rfl).2.2.1 100 (by decide) rfl (by decide) (by decide) rfl).1,
   ((topups_bounded sampleHost ["3", "2"] cheptoo freshDb paidInput 150 freshDb_cheptoo
      rfl).2.2.1 100 (by decide) rfl (by decide) (by decide) rfl).2.1,
   (topups_bounded sampleHost ["3", "4"] cheptoo freshDb paidInput 150 freshDb_cheptoo
      rfl).2.1 (by decide) rfl,
   (topups_bounded sampleHost ["3", "4", "7500"] cheptoo freshDb paidInput 150
      freshDb_cheptoo rfl).2.2.2.2.1 7500 (by decide) rfl (by decide)⟩

/-- C30, refuted as stated: for the household whose stored balance is the string "100", the
path 3*1 with a successful airtime payment appends a payment of 50, so the payment list is not
unchanged, and the balance becomes the string "10050", not a balance raised by 50; the helper
then throws on `toFixed`. -/
theorem topup_on_text_balance :
    getHousehold textBalanceDb akinyi.id = some akinyi ∧
    getPayments textBalanceDb akinyi.id = [] ∧
    getPayments (handlePaymentMenu sampleHost ["3", "1"] akinyi textBalanceDb paidInput).1
        akinyi.id = [airtimePayment paidInput 50] ∧
    (getHousehold (handlePaymentMenu sampleHost ["3", "1"] akinyi textBalanceDb paidInput).1
        akinyi.id).map (fun h => h.balance) = some (JsValue.str "10050") ∧
    (handlePaymentMenu sampleHost ["3", "1"] akinyi textBalanceDb paidInput).2 = none ∧
    ¬ ((getPayments (handlePaymentMenu sampleHost ["3", "1"] akinyi textBalanceDb
            paidInput).1 akinyi.id = getPayments textBalanceDb akinyi.id ∧
          (getHousehold (handlePaymentMenu sampleHost ["3", "1"] akinyi textBalanceDb
            paidInput).1 akinyi.id).map (fun h => h.balance) = some akinyi.balance) ∨
        ∃ b : ℚ, akinyi.balance = JsValue.num b ∧
          (getHousehold (handlePaymentMenu sampleHost ["3", "1"] akinyi textBalanceDb
            paidInput).1 akinyi.id).map (fun h => h.balance) =
            some (JsValue.num (b + 50))) := by
  refine ⟨by decide, by decide, by decide, by decide, by decide, ?_⟩
  rintro (⟨h, -⟩ | ⟨b, hb, -⟩)
  · revert h
    decide
  · simp [akinyi] at hb

/-- C24, at the failing input: the only household was created with the string "100" as its
balance; for its phone number and the input 3*1, with a successful airtime payment, the payment
helper records the payment and then throws on `toFixed`, and as `handleUSSD` returns the
helper's promise without awaiting it, its own `catch` does not run: no result comes back. -/
theorem ussd_rejects_on_text_balance (host : Host) :
    findHouseholdByPhone textBalanceDb "+254700000002" = some akinyi ∧
    menuPathOf "3*1" = ["3", "1"] ∧
    (handleUSSD host textBalanceDb "session" "*384*71176#" "+254700000002" "3*1"
      paidInput).2 = none ∧
    getPayments (handleUSSD host textBalanceDb "session" "*384*71176#" "+254700000002" "3*1"
      paidInput).1 1 = [airtimePayment paidInput 50] := by
  refine ⟨by decide, by decide, rfl, ?_⟩
  simp [getPayments, handleUSSD, handlePaymentMenu, addPayment, mapGet_mapSet_self,
    show findHouseholdByPhone textBalanceDb "+254700000002" = some akinyi by decide,
    show menuPathOf "3*1" = ["3", "1"] by decide, selectedAmount, paidInput, airtimePayment]
  rfl

theorem listStartsWith_append_left (a b p : List Char) (h : listStartsWith a p = true) :
    listStartsWith (a ++ b) p = true := by
  obtain ⟨t, ht⟩ := listStartsWith_split a p h
  rw [ht, List.append_assoc]
  exact listStartsWith_append_self p (t ++ b)

theorem startsWith_append_left (a b p : String) (h : startsWith a p = true) :
    startsWith (a ++ b) p = true := by
  unfold startsWith at h ⊢
  rw [String.toList, String.data_append]
  exact listStartsWith_append_left _ _ _ h

theorem tagged_protocol (r : UssdResult) (h : Tagged r) :
    (startsWith r.response "CON " = true ∨ startsWith r.response "END " = true) ∧
      (r.endSession = true ↔ startsWith r.response "END" = true) := by
  rcases h with ⟨he, hs⟩ | ⟨he, hs⟩
  · refine ⟨Or.inl hs, ?_⟩
    obtain ⟨t, ht⟩ := listStartsWith_split _ _ hs
    have hn : startsWith r.response "END" = false := by
      unfold startsWith
      rw [ht]
      rfl
    simp [he, hn]
  · refine ⟨Or.inr hs, ?_⟩
    obtain ⟨t, ht⟩ := listStartsWith_split _ _ hs
    have hn : startsWith r.response "END" = true := by
      unfold startsWith
      rw [ht]
      rfl
    simp [he, hn]

theorem tagged_end (s : String) (h : startsWith s "END " = true) :
    Tagged { response := s, endSession := true } := Or.inr ⟨rfl, h⟩

theorem tagged_con (s : String) (h : startsWith s "CON " = true) :
    Tagged { response := s, endSession := false } := Or.inl ⟨rfl, h⟩

theorem handlePaymentMenu_tagged (host : Host) (menuPath : List String)
    (household : Household) (db : Database) (inp : UssdInput) (hty : TypedHouseholds db)
    (hm : household ∈ db.households) :
    ∃ r : UssdResult, (handlePaymentMenu host menuPath household db inp).2 = some r ∧
      Tagged r := by
  obtain ⟨h', hm', hh'⟩ := getHousehold_of_mem db household hm
  obtain ⟨⟨q, hq⟩, -⟩ := hty h' hm'
  unfold handlePaymentMenu
  by_cases h1 : menuPath.length = 1
  · rw [if_pos h1]
    exact ⟨_, rfl, tagged_con _ (by decide)⟩
  · rw [if_neg h1]
    cases hs : selectedAmount host menuPath with
    | none => exact ⟨_, rfl, tagged_con _ (by decide)⟩
    | some amount =>
      simp only
      by_cases hv : amount > 0 ∧ amount ≤ 1000
      · rw [if_pos hv]
        by_cases hok : inp.airtimeOk = true
        · have hget : getHousehold
              (addPayment host db household.id (amount : ℚ) "airtime" inp.now inp.stamp
                inp.seen).1 household.id =
              some { h' with balance := h'.balance.plus host (amount : ℚ)
                             lastSeen := inp.seen } := by
            unfold getHousehold at hh' ⊢
            simp only [addPayment]
            exact find_updateHouseholdWith
              (fun h => { h with balance := h.balance.plus host (amount : ℚ)
                                 lastSeen := inp.seen })
              (fun _ => rfl) _ _ _ hh'
          simp only [hok, if_true, hget, Option.bind, hq, JsValue.plus, JsValue.toFixed2]
          refine ⟨_, rfl, tagged_end _ ?_⟩
          repeat (first | decide | apply startsWith_append_left)
        · simp only [hok]
          exact ⟨_, rfl, tagged_end _ (by decide)⟩
      · rw [if_neg hv]
        exact ⟨_, rfl, tagged_end _ (by decide)⟩

theorem handlePowerControl_tagged (host : Host) (menuPath : List String)
    (household : Household) (db : Database) (inp : UssdInput) (hty : TypedHouseholds db)
    (hm : household ∈ db.households) :
    ∃ r : UssdResult, (handlePowerControl host menuPath household db inp).2 = some r ∧
      Tagged r := by
  obtain ⟨h', hm', hh'⟩ := getHousehold_of_mem db household hm
  obtain ⟨⟨q, hq⟩, ⟨s, hs⟩⟩ := hty h' hm'
  obtain ⟨-, ⟨s0, hs0⟩⟩ := hty household hm
  unfold handlePowerControl
  by_cases h1 : menuPath.length = 1
  · rw [if_pos h1]
    simp only [upperStatus, hs0, Option.map]
    refine ⟨_, rfl, tagged_con _ ?_⟩
    repeat (first | decide | apply startsWith_append_left)
  · rw [if_neg h1]
    split
    · split
      · exact ⟨_, rfl, tagged_end _ (by decide)⟩
      · exact ⟨_, rfl, tagged_end _ (by decide)⟩
    · exact ⟨_, rfl, tagged_end _ (by decide)⟩
    · simp only [powerStatusMessage, hh', upperStatus, hs, Option.map, hq, JsValue.toFixed2]
      refine ⟨_, rfl, tagged_end _ ?_⟩
      repeat (first | decide | apply startsWith_append_left)
    · exact ⟨_, rfl, tagged_end _ (by decide)⟩

theorem findHouseholdByPhone_mem (db : Database) (phoneNumber : String) (h : Household)
    (hf : findHouseholdByPhone db phoneNumber = some h) : h ∈ db.households := by
  unfold findHouseholdByPhone getAllHouseholds at hf
  simp only at hf
  split at hf
  · rename_i h1 heq
    simp only [Option.some.injEq] at hf
    subst hf
    exact List.mem_of_find?_eq_some heq
  · split at hf
    · rename_i h2 heq
      simp only [Option.some.injEq] at hf
      subst hf
      exact List.mem_of_find?_eq_some heq
    · exact List.mem_of_find?_eq_some hf

/-- Where every household holds a number as balance and a string as power status, `handleUSSD`
always returns, and its response begins with "CON " or "END " in step with `endSession`. -/
theorem handleUSSD_protocol_of_typed (host : Host) (db : Database)
    (sessionId serviceCode phoneNumber text : String) (inp : UssdInput)
    (hty : TypedHouseholds db) :
    ∃ r : UssdResult,
      (handleUSSD host db sessionId serviceCode phoneNumber text inp).2 = some r ∧
      (startsWith r.response "CON " = true ∨ startsWith r.response "END " = true) ∧
      (r.endSession = true ↔ startsWith r.response "END" = true) := by
  suffices h : ∃ r : UssdResult,
      (handleUSSD host db sessionId serviceCode phoneNumber text inp).2 = some r ∧
        Tagged r by
    obtain ⟨r, hr, ht⟩ := h
    exact ⟨r, hr, tagged_protocol r ht⟩
  have hsu : Tagged serviceUnavailable := tagged_end _ (by decide)
  unfold handleUSSD
  cases hf : findHouseholdByPhone db phoneNumber with
  | none => exact ⟨_, rfl, tagged_end _ (by decide)⟩
  | some household =>
    have hm := findHouseholdByPhone_mem db _ _ hf
    simp only
    by_cases h0 : (menuPathOf text).length = 0
    · rw [if_pos h0]
      refine ⟨_, rfl, tagged_con _ ?_⟩
      repeat (first | decide | apply startsWith_append_left)
    · rw [if_neg h0]
      split
      · split
        · split
          · exact ⟨_, rfl, hsu⟩
          · refine ⟨_, rfl, tagged_end _ ?_⟩
            repeat (first | decide | apply startsWith_append_left)
        · split
          · exact ⟨_, rfl, hsu⟩
          · refine ⟨_, rfl, tagged_end _ ?_⟩
            repeat (first | decide | apply startsWith_append_left)
      · split
        · exact ⟨_, rfl, hsu⟩
        · refine ⟨_, rfl, tagged_end _ ?_⟩
          repeat (first | decide | apply startsWith_append_left)
      · exact handlePaymentMenu_tagged host _ household db inp hty hm
      · exact handlePowerControl_tagged host _ household db inp hty hm
      · split
        · exact ⟨_, rfl, tagged_end _ (by decide)⟩
        · refine ⟨_, rfl, tagged_end _ ?_⟩
          repeat (first | decide | apply startsWith_append_left)
      · exact ⟨_, rfl, tagged_end _ (by decide)⟩

/-! ## Levels that are not finite -/

theorem levelAfter_nan_ticks (ds : List ℚ) :
    levelAfter JsNumber.nan (ds.map LevelWrite.tick) = JsNumber.nan := by
  induction ds with
  | nil => rfl
  | cons d rest ih =>
    have h : tickLevel JsNumber.nan d = JsNumber.nan := rfl
    simp only [levelAfter, List.map_cons, List.foldl_cons, h] at ih ⊢
    exact ih

/-- C1, at the failing input: an override with `NaN` stores `NaN`, from any earlier level
every later tick keeps it, and `NaN` fails both `0 <= level` and `level <= 100`.  On finite
numbers `overrideLevel` and `tickLevel` are the expressions of `setBatteryLevel` and of the
tick, for which the bounds do hold. -/
theorem override_nan_stays (b : ℚ) (ds : List ℚ) :
    overrideLevel JsNumber.nan = JsNumber.nan ∧
    levelAfter (JsNumber.finite b)
      (LevelWrite.override JsNumber.nan :: ds.map LevelWrite.tick) = JsNumber.nan ∧
    JsNumber.le (JsNumber.finite 0) JsNumber.nan = false ∧
    JsNumber.le JsNumber.nan (JsNumber.finite 100) = false ∧
    (∀ q : ℚ, overrideLevel (JsNumber.finite q) =
      JsNumber.finite (mathMax 0 (mathMin 100 q))) ∧
    (∀ (state : SensorState) (inp : TickInput),
      tickLevel (JsNumber.finite state.batteryLevel)
        (deltaCharge ((tickBody state inp).1.solarGeneration -
            (tickBody state inp).1.powerConsumption)
          (((inp.now - state.lastUpdate : ℤ) : ℚ) / 1000)) =
        JsNumber.finite (tickBody state inp).1.batteryLevel) := by
  refine ⟨rfl, ?_, rfl, rfl, fun q => rfl, fun state inp => rfl⟩
  have h : levelAfter (JsNumber.finite b)
      (LevelWrite.override JsNumber.nan :: ds.map LevelWrite.tick) =
      levelAfter JsNumber.nan (ds.map LevelWrite.tick) := rfl
  rw [h]
  exact levelAfter_nan_ticks ds

/-! ## Limits of `getSensorReadings` -/

/-- C28, refuted as stated: with a limit of 0 the call returns the one stored reading of the
sample household, which is more than 0 readings. -/
theorem getSensorReadings_zero_exceeds_limit :
    (getSensorReadings almostFullDb 1 0).length = 1 ∧
      ¬ (((getSensorReadings almostFullDb 1 0).length : ℤ) ≤ 0) := by
  have h : (getSensorReadings almostFullDb 1 0).length = 1 := by
    simp [getSensorReadings, arraySlice, almostFullDb, freshDb, addSensorReading,
      createHousehold, Database.empty, mapSet, mapGet, pushCapped]
  rw [h]
  exact ⟨rfl, by decide⟩

/-- C28, amended. For every integer limit of at least 1, `getSensorReadings` returns at most
`limit` readings, namely the last `min(limit, stored count)` stored readings in stored order;
with a limit of 0 it returns every stored reading. -/
theorem getSensorReadings_limit (db : Database) (householdId : ℕ) (limit : ℤ)
    (h : 1 ≤ limit) :
    ((getSensorReadings db householdId limit).length : ℤ) ≤ limit ∧
    getSensorReadings db householdId limit =
      lastN (min limit.toNat ((mapGet db.sensorData householdId).getD []).length)
        ((mapGet db.sensorData householdId).getD []) ∧
    getSensorReadings db householdId 0 = (mapGet db.sensorData householdId).getD [] := by
  obtain ⟨n, hn⟩ : ∃ n : ℕ, limit = (n : ℤ) + 1 := ⟨(limit - 1).toNat, by omega⟩
  have hs : getSensorReadings db householdId limit =
      lastN (n + 1) ((mapGet db.sensorData householdId).getD []) := by
    unfold getSensorReadings
    rw [hn]
    exact arraySlice_neg_succ _ n
  have ht : limit.toNat = n + 1 := by omega
  refine ⟨?_, ?_, ?_⟩
  · rw [hs, hn]
    simp only [lastN, List.length_drop]
    omega
  · rw [hs, ht]
    simp only [lastN]
    congr 1
    omega
  · simp [getSensorReadings, arraySlice]

/-- C28 as amended, instance: after two readings have been stored, a limit of 1 returns one
reading, the last one. -/
theorem getSensorReadings_limit_witness :
    ((getSensorReadings (addAllReadings freshDb 1 twoReadings) 1 1).length : ℤ) ≤ 1 ∧
    getSensorReadings (addAllReadings freshDb 1 twoReadings) 1 1 =
      lastN (min (1 : ℤ).toNat
          ((mapGet (addAllReadings freshDb 1 twoReadings).sensorData 1).getD []).length)
        ((mapGet (addAllReadings freshDb 1 twoReadings).sensorData 1).getD []) ∧
    getSensorReadings (addAllReadings freshDb 1 twoReadings) 1 0 =
      (mapGet (addAllReadings freshDb 1 twoReadings).sensorData 1).getD [] :=
  getSensorReadings_limit (addAllReadings freshDb 1 twoReadings) 1 1 (by decide)

end SolarPay
